import Mathlib

/-!
# Verification of the Attio tool envelope

A shallow embedding of the tool functions of this repository
(`src/{entries,records,lists,attributes,notes,objects,tasks,workspace_members}/tools.py`
together with `src/config.py`).

Every tool follows the same shape: check the configured credential, build a
URL/headers/payload, issue exactly one HTTP request through `httpx`, and map
the response or the raised exception to a result dictionary.  We embed each
tool as a total Lean function from the configuration, its caller-supplied
arguments, and the behavior of the upstream at the single network call, to an
outcome recording the requests issued and the returned dictionary.

Python/`httpx` semantics captured by the embedding:
* `response.raise_for_status()` raises `httpx.HTTPStatusError` exactly when
  the status code is not 2xx (httpx treats 200..299 as success);
* `response.json()` returns the JSON-decoded body, raising a
  `json.JSONDecodeError` (a `ValueError`) when the text does not decode —
  in particular on the empty body of a `204 No Content` response;
* a transport failure at the request surfaces as `httpx.RequestError`;
  any other exception is only caught by the final `except Exception`.

Since we do not model Python's textual JSON parser, a response body is
abstracted as either a text together with the JSON value it decodes to, or an
undecodable text together with the message of the `JSONDecodeError` that
decoding it raises.
-/

/-- A JSON value, as produced by Python's `json` module (numbers restricted to
integers, which is all this code base ever constructs itself). -/
inductive Json where
  | null : Json
  | bool : Bool → Json
  | num : Int → Json
  | str : String → Json
  | arr : List Json → Json
  | obj : List (String × Json) → Json
deriving Repr

/-- Python truthiness of a JSON-shaped value (`bool(x)`): `None`, `False`,
`0`, `""`, `[]` and `{}` are falsy, everything else truthy. -/
def Json.truthy : Json → Bool
  | .null => false
  | .bool b => b
  | .num n => n != 0
  | .str s => s != ""
  | .arr xs => !xs.isEmpty
  | .obj fs => !fs.isEmpty

/-- Truthiness of an optional argument (`if x:` where `x` may be `None`). -/
def pyTruthy : Option Json → Bool
  | none => false
  | some j => j.truthy

/-- Is the value a JSON object (a Python `dict`)? -/
def Json.isObj : Json → Bool
  | .obj _ => true
  | _ => false

/-- Does the value carry an `"error"` key, i.e. is it one of the
error-tagged result dictionaries? -/
def Json.hasErrorKey : Json → Bool
  | .obj fs => fs.any (fun p => p.1 == "error")
  | _ => false

/-- HTTP method of an outbound request. -/
inductive Method where
  | GET | POST | PUT | PATCH | DELETE
deriving Repr

/-- The body of an upstream HTTP response.  `decodable text j` is a body
whose text JSON-decodes to `j`; `undecodable text errMsg` is a body whose
text does not decode, `errMsg` being the message of the `JSONDecodeError`
raised on the attempt (the empty body of a `204` is of this second kind). -/
inductive Body where
  | decodable : String → Json → Body
  | undecodable : String → String → Body
deriving Repr

/-- `response.text`. -/
def Body.text : Body → String
  | .decodable t _ => t
  | .undecodable t _ => t

/-- Behavior of the upstream at the single network call of a tool:
a reply with a status code and body, a transport-level failure
(`httpx.RequestError`, carrying `str(e)`), or any other exception raised at
the call (carrying `str(e)`). -/
inductive Upstream where
  | reply : Nat → Body → Upstream
  | transportErr : String → Upstream
  | otherErr : String → Upstream
deriving Repr

/-- An outbound HTTP request as the tool hands it to `httpx`. -/
structure Request where
  method : Method
  url : String
  headers : List (String × String)
  params : List (String × Option Int)
  body : Option Json
deriving Repr

/-- Outcome of one tool invocation: the requests issued (in order) and the
dictionary returned. -/
structure ToolOutcome where
  requests : List Request
  result : Json
deriving Repr

/-- Process-wide configuration (`src/config.py`): `BASE_URL` defaults to the
production host, `API_KEY` is read from the environment and may be absent. -/
structure Config where
  BASE_URL : String
  API_KEY : Option String
deriving Repr

/-- `if not API_KEY:` — false when the key is `None` or the empty string. -/
def Config.keySet (c : Config) : Bool := c.API_KEY.getD "" != ""

/-- The configured key (meaningful when `keySet`). -/
def Config.key (c : Config) : String := c.API_KEY.getD ""

/-- The error dictionary every tool returns when the credential is absent. -/
def errNoKey : Json := .obj [("error", .str "API_KEY environment variable not set.")]

/-- The error dictionary the attribute/option/status tools return on an
out-of-range `target_type`. -/
def errInvalidTT : Json :=
  .obj [("error", .str "Invalid target_type. Must be 'objects' or 'lists'.")]

/-- `if not API_KEY: return {"error": ...}` guard shared by every tool. -/
def requireKey (cfg : Config) (k : ToolOutcome) : ToolOutcome :=
  if cfg.keySet then k else ⟨[], errNoKey⟩

/-- `if target_type not in ['objects', 'lists']: return {"error": ...}`
guard of the attribute/select-option/status tools. -/
def requireTargetType (target_type : String) (k : ToolOutcome) : ToolOutcome :=
  if target_type = "objects" ∨ target_type = "lists" then k else ⟨[], errInvalidTT⟩

/-- `httpx.Response.is_success`: the statuses `raise_for_status` accepts. -/
def is2xx (status : Nat) : Bool := 200 ≤ status && status ≤ 299

/-- An exception escaping the `try` block of a tool. -/
inductive PyExc where
  | httpStatusError : Nat → Body → PyExc
  | requestError : String → PyExc
  | other : String → PyExc
deriving Repr

/-- `response.json()`: the decoded value, or the `JSONDecodeError` it raises. -/
def Body.jsonE : Body → Except PyExc Json
  | .decodable _ j => .ok j
  | .undecodable _ errMsg => .error (.other errMsg)

/-- Best-effort decoding used in the entries/records/lists error handlers:
`try: e.response.json() except ValueError: e.response.text`. -/
def Body.decodeOrText : Body → Json
  | .decodable _ j => j
  | .undecodable t _ => .str t

/-- The `try` block of a tool: perform the single request (whose fate is
`up`), then `raise_for_status()`, then run the success continuation `onOk`
(itself allowed to raise, e.g. `response.json()`). -/
def attempt (up : Upstream) (onOk : Nat → Body → Except PyExc Json) : Except PyExc Json :=
  match up with
  | .reply status body =>
      if is2xx status then onOk status body
      else .error (.httpStatusError status body)
  | .transportErr msg => .error (.requestError msg)
  | .otherErr msg => .error (.other msg)

/-- The three `except` clauses of the entries/records/lists tools:
status errors report `"API request failed with status <code>"` with
JSON-decoded-or-raw-text details, request errors report
`"Request to <url> failed: <msg>"`, anything else
`"An unexpected error occurred: <msg>"`. -/
def classifyA (url : String) : PyExc → Json
  | .httpStatusError status body =>
      .obj [("error", .str ("API request failed with status " ++ toString status)),
            ("details", body.decodeOrText)]
  | .requestError msg =>
      .obj [("error", .str ("Request to " ++ url ++ " failed: " ++ msg))]
  | .other msg =>
      .obj [("error", .str ("An unexpected error occurred: " ++ msg))]

/-- The three `except` clauses of the attributes/notes/objects/tasks/
workspace-members tools: status errors report `"API request failed: <code>"`
with the raw response text as details (no JSON-decode attempt), request
errors report `"Request failed: <msg>"`, anything else
`"An unexpected error occurred: <msg>"`. -/
def classifyB : PyExc → Json
  | .httpStatusError status body =>
      .obj [("error", .str ("API request failed: " ++ toString status)),
            ("details", .str body.text)]
  | .requestError msg =>
      .obj [("error", .str ("Request failed: " ++ msg))]
  | .other msg =>
      .obj [("error", .str ("An unexpected error occurred: " ++ msg))]

/-- `try`/`except` of an entries/records/lists tool. -/
def runA (url : String) (up : Upstream) (onOk : Nat → Body → Except PyExc Json) : Json :=
  match attempt up onOk with
  | .ok j => j
  | .error e => classifyA url e

/-- `try`/`except` of an attributes/notes/objects/tasks/workspace-members tool. -/
def runB (up : Upstream) (onOk : Nat → Body → Except PyExc Json) : Json :=
  match attempt up onOk with
  | .ok j => j
  | .error e => classifyB e

/-- `return response.json()` — the success continuation of the plain tools. -/
def plainOk : Nat → Body → Except PyExc Json := fun _ body => body.jsonE

/-- Headers of a tool that sends no JSON body. -/
def authHeaders (cfg : Config) : List (String × String) :=
  [("Authorization", "Bearer " ++ cfg.key)]

/-- Headers of a tool that sends a JSON body. -/
def jsonHeaders (cfg : Config) : List (String × String) :=
  [("Authorization", "Bearer " ++ cfg.key), ("Content-Type", "application/json")]

/-! ## `src/entries/tools.py` -/

/-- `create_list_entry`: POST `/v2/lists/{list_id}/entries` with payload
`{"data": entry_data}`. -/
def create_list_entry (cfg : Config) (list_id : String) (entry_data : Json)
    (up : Upstream) : ToolOutcome :=
  requireKey cfg <|
    let payload : Json := .obj [("data", entry_data)]
    let url := cfg.BASE_URL ++ "/v2/lists/" ++ list_id ++ "/entries"
    let req : Request := ⟨.POST, url, jsonHeaders cfg, [], some payload⟩
    ⟨[req], runA url up plainOk⟩

/-- `get_list_entry`: GET `/v2/lists/{list_id}/entries/{entry_id}`. -/
def get_list_entry (cfg : Config) (list_id entry_id : String)
    (up : Upstream) : ToolOutcome :=
  requireKey cfg <|
    let url := cfg.BASE_URL ++ "/v2/lists/" ++ list_id ++ "/entries/" ++ entry_id
    let req : Request := ⟨.GET, url, authHeaders cfg, [], none⟩
    ⟨[req], runA url up plainOk⟩

/-- `list_entries`: POST `/v2/lists/{list_id}/entries/query` with a top-level
payload holding `limit`/`offset` and, only when truthy, `filter`/`sorts`. -/
def list_entries (cfg : Config) (list_id : String)
    (filter_criteria : Option Json) (sorts : Option Json)
    (limit : Int) (offset : Int) (up : Upstream) : ToolOutcome :=
  requireKey cfg <|
    let payload : Json := .obj <|
      [("limit", .num limit), ("offset", .num offset)]
      ++ (if pyTruthy filter_criteria then [("filter", filter_criteria.getD .null)] else [])
      ++ (if pyTruthy sorts then [("sorts", sorts.getD .null)] else [])
    let url := cfg.BASE_URL ++ "/v2/lists/" ++ list_id ++ "/entries/query"
    let req : Request := ⟨.POST, url, jsonHeaders cfg, [], some payload⟩
    ⟨[req], runA url up plainOk⟩

/-- `update_list_entry_overwrite`: PUT `/v2/lists/{list_id}/entries/{entry_id}`
with payload `{"data": entry_data}`. -/
def update_list_entry_overwrite (cfg : Config) (list_id entry_id : String)
    (entry_data : Json) (up : Upstream) : ToolOutcome :=
  requireKey cfg <|
    let payload : Json := .obj [("data", entry_data)]
    let url := cfg.BASE_URL ++ "/v2/lists/" ++ list_id ++ "/entries/" ++ entry_id
    let req : Request := ⟨.PUT, url, jsonHeaders cfg, [], some payload⟩
    ⟨[req], runA url up plainOk⟩

/-- `update_list_entry_append`: PATCH `/v2/lists/{list_id}/entries/{entry_id}`
with payload `{"data": entry_data}`. -/
def update_list_entry_append (cfg : Config) (list_id entry_id : String)
    (entry_data : Json) (up : Upstream) : ToolOutcome :=
  requireKey cfg <|
    let payload : Json := .obj [("data", entry_data)]
    let url := cfg.BASE_URL ++ "/v2/lists/" ++ list_id ++ "/entries/" ++ entry_id
    let req : Request := ⟨.PATCH, url, jsonHeaders cfg, [], some payload⟩
    ⟨[req], runA url up plainOk⟩

/-- `delete_list_entry`: DELETE `/v2/lists/{list_id}/entries/{entry_id}`.
Note the success path is `return response.json()` with no check for status
204 — unlike `delete_record`/`delete_note`/`delete_task`. -/
def delete_list_entry (cfg : Config) (list_id entry_id : String)
    (up : Upstream) : ToolOutcome :=
  requireKey cfg <|
    let url := cfg.BASE_URL ++ "/v2/lists/" ++ list_id ++ "/entries/" ++ entry_id
    let req : Request := ⟨.DELETE, url, authHeaders cfg, [], none⟩
    ⟨[req], runA url up plainOk⟩

/-- `get_list_entry_attribute_values`: GET
`/v2/lists/{list_id}/entries/{entry_id}/attributes/{attr}/values`. -/
def get_list_entry_attribute_values (cfg : Config)
    (list_id entry_id attribute_id_or_slug : String)
    (up : Upstream) : ToolOutcome :=
  requireKey cfg <|
    let url := cfg.BASE_URL ++ "/v2/lists/" ++ list_id ++ "/entries/" ++ entry_id
      ++ "/attributes/" ++ attribute_id_or_slug ++ "/values"
    let req : Request := ⟨.GET, url, authHeaders cfg, [], none⟩
    ⟨[req], runA url up plainOk⟩

/-! ## `src/records/tools.py` -/

/-- `get_record`: GET `/v2/objects/{object_id_or_slug}/records/{record_id}`. -/
def get_record (cfg : Config) (object_id_or_slug record_id : String)
    (up : Upstream) : ToolOutcome :=
  requireKey cfg <|
    let url := cfg.BASE_URL ++ "/v2/objects/" ++ object_id_or_slug ++ "/records/" ++ record_id
    let req : Request := ⟨.GET, url, authHeaders cfg, [], none⟩
    ⟨[req], runA url up plainOk⟩

/-- `update_record_overwrite`: PUT `/v2/objects/{slug}/records/{record_id}`
with payload `{"data": record_data}`. -/
def update_record_overwrite (cfg : Config) (object_id_or_slug record_id : String)
    (record_data : Json) (up : Upstream) : ToolOutcome :=
  requireKey cfg <|
    let payload : Json := .obj [("data", record_data)]
    let url := cfg.BASE_URL ++ "/v2/objects/" ++ object_id_or_slug ++ "/records/" ++ record_id
    let req : Request := ⟨.PUT, url, jsonHeaders cfg, [], some payload⟩
    ⟨[req], runA url up plainOk⟩

/-- `update_record_append`: PATCH `/v2/objects/{slug}/records/{record_id}`
with payload `{"data": record_data}`. -/
def update_record_append (cfg : Config) (object_id_or_slug record_id : String)
    (record_data : Json) (up : Upstream) : ToolOutcome :=
  requireKey cfg <|
    let payload : Json := .obj [("data", record_data)]
    let url := cfg.BASE_URL ++ "/v2/objects/" ++ object_id_or_slug ++ "/records/" ++ record_id
    let req : Request := ⟨.PATCH, url, jsonHeaders cfg, [], some payload⟩
    ⟨[req], runA url up plainOk⟩

/-- The success dictionary `delete_record` returns on a 204. -/
def deleteRecordSuccess (record_id : String) : Json :=
  .obj [("status", .str "success"),
        ("message", .str ("Record " ++ record_id ++ " deleted successfully."))]

/-- `delete_record`: DELETE `/v2/objects/{slug}/records/{record_id}`.  The
success path checks `status_code == 204` before `response.json()`, and the
`HTTPStatusError` handler repeats the 204 check (dead in practice, since
`raise_for_status` does not raise on a 2xx) before building the details. -/
def delete_record (cfg : Config) (object_id_or_slug record_id : String)
    (up : Upstream) : ToolOutcome :=
  requireKey cfg <|
    let url := cfg.BASE_URL ++ "/v2/objects/" ++ object_id_or_slug ++ "/records/" ++ record_id
    let req : Request := ⟨.DELETE, url, authHeaders cfg, [], none⟩
    let onOk : Nat → Body → Except PyExc Json := fun status body =>
      if status == 204 then .ok (deleteRecordSuccess record_id) else body.jsonE
    let res : Json :=
      match attempt up onOk with
      | .ok j => j
      | .error (.httpStatusError status body) =>
          if status == 204 then deleteRecordSuccess record_id
          else .obj [("error", .str ("API request failed with status " ++ toString status)),
                     ("details", body.decodeOrText)]
      | .error e => classifyA url e
    ⟨[req], res⟩

/-- `list_record_entries`: GET `/v2/objects/{slug}/records/{record_id}/entries`
with `limit`/`offset` query parameters, each included only when not `None`. -/
def list_record_entries (cfg : Config) (object_id_or_slug record_id : String)
    (limit offset : Option Int) (up : Upstream) : ToolOutcome :=
  requireKey cfg <|
    let params : List (String × Option Int) :=
      (match limit with | some l => [("limit", some l)] | none => [])
      ++ (match offset with | some o => [("offset", some o)] | none => [])
    let url := cfg.BASE_URL ++ "/v2/objects/" ++ object_id_or_slug ++ "/records/" ++ record_id ++ "/entries"
    let req : Request := ⟨.GET, url, authHeaders cfg, params, none⟩
    ⟨[req], runA url up plainOk⟩

/-- `list_records`: POST `/v2/objects/{slug}/records/query` with payload
`{"data": {limit, offset, filter?, sorts?}}` — `filter`/`sorts` included only
when truthy. -/
def list_records (cfg : Config) (object_id_or_slug : String)
    (filter_criteria : Option Json) (sorts : Option Json)
    (limit : Int) (offset : Int) (up : Upstream) : ToolOutcome :=
  requireKey cfg <|
    let payload_data : List (String × Json) :=
      [("limit", .num limit), ("offset", .num offset)]
      ++ (if pyTruthy filter_criteria then [("filter", filter_criteria.getD .null)] else [])
      ++ (if pyTruthy sorts then [("sorts", sorts.getD .null)] else [])
    let payload : Json := .obj [("data", .obj payload_data)]
    let url := cfg.BASE_URL ++ "/v2/objects/" ++ object_id_or_slug ++ "/records/query"
    let req : Request := ⟨.POST, url, jsonHeaders cfg, [], some payload⟩
    ⟨[req], runA url up plainOk⟩

/-- `create_record`: POST `/v2/objects/{slug}/records` with payload
`{"data": record_data}`. -/
def create_record (cfg : Config) (object_id_or_slug : String)
    (record_data : Json) (up : Upstream) : ToolOutcome :=
  requireKey cfg <|
    let payload : Json := .obj [("data", record_data)]
    let url := cfg.BASE_URL ++ "/v2/objects/" ++ object_id_or_slug ++ "/records"
    let req : Request := ⟨.POST, url, jsonHeaders cfg, [], some payload⟩
    ⟨[req], runA url up plainOk⟩

/-! ## `src/lists/tools.py` -/

/-- `list_lists`: GET `/v2/lists` with `limit`/`offset` query parameters,
each included only when not `None`. -/
def list_lists (cfg : Config) (limit offset : Option Int) (up : Upstream) : ToolOutcome :=
  requireKey cfg <|
    let params : List (String × Option Int) :=
      (match limit with | some l => [("limit", some l)] | none => [])
      ++ (match offset with | some o => [("offset", some o)] | none => [])
    let url := cfg.BASE_URL ++ "/v2/lists"
    let req : Request := ⟨.GET, url, authHeaders cfg, params, none⟩
    ⟨[req], runA url up plainOk⟩

/-- `create_list`: POST `/v2/lists` with payload `{"data": list_data}`. -/
def create_list (cfg : Config) (list_data : Json) (up : Upstream) : ToolOutcome :=
  requireKey cfg <|
    let payload : Json := .obj [("data", list_data)]
    let url := cfg.BASE_URL ++ "/v2/lists"
    let req : Request := ⟨.POST, url, jsonHeaders cfg, [], some payload⟩
    ⟨[req], runA url up plainOk⟩

/-- `get_list`: GET `/v2/lists/{list_id_or_slug}`. -/
def get_list (cfg : Config) (list_id_or_slug : String) (up : Upstream) : ToolOutcome :=
  requireKey cfg <|
    let url := cfg.BASE_URL ++ "/v2/lists/" ++ list_id_or_slug
    let req : Request := ⟨.GET, url, authHeaders cfg, [], none⟩
    ⟨[req], runA url up plainOk⟩

/-- `update_list`: PATCH `/v2/lists/{list_id_or_slug}` with payload
`{"data": list_data}`. -/
def update_list (cfg : Config) (list_id_or_slug : String) (list_data : Json)
    (up : Upstream) : ToolOutcome :=
  requireKey cfg <|
    let payload : Json := .obj [("data", list_data)]
    let url := cfg.BASE_URL ++ "/v2/lists/" ++ list_id_or_slug
    let req : Request := ⟨.PATCH, url, jsonHeaders cfg, [], some payload⟩
    ⟨[req], runA url up plainOk⟩

/-! ## `src/attributes/tools.py` -/

/-- `list_attributes`: GET `/v2/{target_type}/{target_identifier}/attributes`
with `limit`/`offset` query parameters (passed through even when `None`). -/
def list_attributes (cfg : Config) (target_type target_identifier : String)
    (limit offset : Option Int) (up : Upstream) : ToolOutcome :=
  requireKey cfg <| requireTargetType target_type <|
    let params : List (String × Option Int) := [("limit", limit), ("offset", offset)]
    let url := cfg.BASE_URL ++ "/v2/" ++ target_type ++ "/" ++ target_identifier ++ "/attributes"
    let req : Request := ⟨.GET, url, authHeaders cfg, params, none⟩
    ⟨[req], runB up plainOk⟩

/-- `create_attribute`: POST `/v2/{target_type}/{target_identifier}/attributes`
with payload `{"data": attribute_data}`. -/
def create_attribute (cfg : Config) (target_type target_identifier : String)
    (attribute_data : Json) (up : Upstream) : ToolOutcome :=
  requireKey cfg <| requireTargetType target_type <|
    let payload : Json := .obj [("data", attribute_data)]
    let url := cfg.BASE_URL ++ "/v2/" ++ target_type ++ "/" ++ target_identifier ++ "/attributes"
    let req : Request := ⟨.POST, url, jsonHeaders cfg, [], some payload⟩
    ⟨[req], runB up plainOk⟩

/-- `get_attribute`: GET `/v2/{target_type}/{target_identifier}/attributes/{attr}`. -/
def get_attribute (cfg : Config) (target_type target_identifier attribute_id_or_slug : String)
    (up : Upstream) : ToolOutcome :=
  requireKey cfg <| requireTargetType target_type <|
    let url := cfg.BASE_URL ++ "/v2/" ++ target_type ++ "/" ++ target_identifier
      ++ "/attributes/" ++ attribute_id_or_slug
    let req : Request := ⟨.GET, url, authHeaders cfg, [], none⟩
    ⟨[req], runB up plainOk⟩

/-- `update_attribute`: PATCH `/v2/{target_type}/{target_identifier}/attributes/{attr}`
with payload `{"data": attribute_data}`. -/
def update_attribute (cfg : Config) (target_type target_identifier attribute_id_or_slug : String)
    (attribute_data : Json) (up : Upstream) : ToolOutcome :=
  requireKey cfg <| requireTargetType target_type <|
    let payload : Json := .obj [("data", attribute_data)]
    let url := cfg.BASE_URL ++ "/v2/" ++ target_type ++ "/" ++ target_identifier
      ++ "/attributes/" ++ attribute_id_or_slug
    let req : Request := ⟨.PATCH, url, jsonHeaders cfg, [], some payload⟩
    ⟨[req], runB up plainOk⟩

/-- `list_select_options`: GET `.../attributes/{attr}/options` with
`limit`/`offset` query parameters (passed through even when `None`). -/
def list_select_options (cfg : Config) (target_type target_identifier attribute_id_or_slug : String)
    (limit offset : Option Int) (up : Upstream) : ToolOutcome :=
  requireKey cfg <| requireTargetType target_type <|
    let params : List (String × Option Int) := [("limit", limit), ("offset", offset)]
    let url := cfg.BASE_URL ++ "/v2/" ++ target_type ++ "/" ++ target_identifier
      ++ "/attributes/" ++ attribute_id_or_slug ++ "/options"
    let req : Request := ⟨.GET, url, authHeaders cfg, params, none⟩
    ⟨[req], runB up plainOk⟩

/-- `create_select_option`: POST `.../attributes/{attr}/options` with payload
`{"data": option_data}`. -/
def create_select_option (cfg : Config) (target_type target_identifier attribute_id_or_slug : String)
    (option_data : Json) (up : Upstream) : ToolOutcome :=
  requireKey cfg <| requireTargetType target_type <|
    let payload : Json := .obj [("data", option_data)]
    let url := cfg.BASE_URL ++ "/v2/" ++ target_type ++ "/" ++ target_identifier
      ++ "/attributes/" ++ attribute_id_or_slug ++ "/options"
    let req : Request := ⟨.POST, url, jsonHeaders cfg, [], some payload⟩
    ⟨[req], runB up plainOk⟩

/-- `update_select_option`: PATCH `.../attributes/{attr}/options/{option_id}`
with payload `{"data": option_data}`. -/
def update_select_option (cfg : Config)
    (target_type target_identifier attribute_id_or_slug option_id : String)
    (option_data : Json) (up : Upstream) : ToolOutcome :=
  requireKey cfg <| requireTargetType target_type <|
    let payload : Json := .obj [("data", option_data)]
    let url := cfg.BASE_URL ++ "/v2/" ++ target_type ++ "/" ++ target_identifier
      ++ "/attributes/" ++ attribute_id_or_slug ++ "/options/" ++ option_id
    let req : Request := ⟨.PATCH, url, jsonHeaders cfg, [], some payload⟩
    ⟨[req], runB up plainOk⟩

/-- `list_statuses`: GET `.../attributes/{attr}/statuses` with
`limit`/`offset` query parameters (passed through even when `None`). -/
def list_statuses (cfg : Config) (target_type target_identifier attribute_id_or_slug : String)
    (limit offset : Option Int) (up : Upstream) : ToolOutcome :=
  requireKey cfg <| requireTargetType target_type <|
    let params : List (String × Option Int) := [("limit", limit), ("offset", offset)]
    let url := cfg.BASE_URL ++ "/v2/" ++ target_type ++ "/" ++ target_identifier
      ++ "/attributes/" ++ attribute_id_or_slug ++ "/statuses"
    let req : Request := ⟨.GET, url, authHeaders cfg, params, none⟩
    ⟨[req], runB up plainOk⟩

/-- `create_status`: POST `.../attributes/{attr}/statuses` with payload
`{"data": status_data}`. -/
def create_status (cfg : Config) (target_type target_identifier attribute_id_or_slug : String)
    (status_data : Json) (up : Upstream) : ToolOutcome :=
  requireKey cfg <| requireTargetType target_type <|
    let payload : Json := .obj [("data", status_data)]
    let url := cfg.BASE_URL ++ "/v2/" ++ target_type ++ "/" ++ target_identifier
      ++ "/attributes/" ++ attribute_id_or_slug ++ "/statuses"
    let req : Request := ⟨.POST, url, jsonHeaders cfg, [], some payload⟩
    ⟨[req], runB up plainOk⟩

/-- `update_status`: PATCH `.../attributes/{attr}/statuses/{status_id}` with
payload `{"data": status_data}`. -/
def update_status (cfg : Config)
    (target_type target_identifier attribute_id_or_slug status_id : String)
    (status_data : Json) (up : Upstream) : ToolOutcome :=
  requireKey cfg <| requireTargetType target_type <|
    let payload : Json := .obj [("data", status_data)]
    let url := cfg.BASE_URL ++ "/v2/" ++ target_type ++ "/" ++ target_identifier
      ++ "/attributes/" ++ attribute_id_or_slug ++ "/statuses/" ++ status_id
    let req : Request := ⟨.PATCH, url, jsonHeaders cfg, [], some payload⟩
    ⟨[req], runB up plainOk⟩

/-! ## `src/notes/tools.py` -/

/-- `list_notes`: GET `/v2/notes`. -/
def list_notes (cfg : Config) (up : Upstream) : ToolOutcome :=
  requireKey cfg <|
    let url := cfg.BASE_URL ++ "/v2/notes"
    let req : Request := ⟨.GET, url, authHeaders cfg, [], none⟩
    ⟨[req], runB up plainOk⟩

/-- `create_note`: POST `/v2/notes` with payload `{"data": note_data}`. -/
def create_note (cfg : Config) (note_data : Json) (up : Upstream) : ToolOutcome :=
  requireKey cfg <|
    let payload : Json := .obj [("data", note_data)]
    let url := cfg.BASE_URL ++ "/v2/notes"
    let req : Request := ⟨.POST, url, jsonHeaders cfg, [], some payload⟩
    ⟨[req], runB up plainOk⟩

/-- `get_note`: GET `/v2/notes/{note_id}`. -/
def get_note (cfg : Config) (note_id : String) (up : Upstream) : ToolOutcome :=
  requireKey cfg <|
    let url := cfg.BASE_URL ++ "/v2/notes/" ++ note_id
    let req : Request := ⟨.GET, url, authHeaders cfg, [], none⟩
    ⟨[req], runB up plainOk⟩

/-- The success dictionary `delete_note` returns on a 204. -/
def deleteNoteSuccess (note_id : String) : Json :=
  .obj [("message", .str ("Note " ++ note_id ++ " deleted successfully."))]

/-- `delete_note`: DELETE `/v2/notes/{note_id}`; the success path checks
`status_code == 204` before falling back to `response.json()`. -/
def delete_note (cfg : Config) (note_id : String) (up : Upstream) : ToolOutcome :=
  requireKey cfg <|
    let url := cfg.BASE_URL ++ "/v2/notes/" ++ note_id
    let req : Request := ⟨.DELETE, url, authHeaders cfg, [], none⟩
    let onOk : Nat → Body → Except PyExc Json := fun status body =>
      if status == 204 then .ok (deleteNoteSuccess note_id) else body.jsonE
    ⟨[req], runB up onOk⟩

/-! ## `src/objects/tools.py` -/

/-- `list_objects`: GET `/v2/objects` with `limit`/`offset` query parameters
(passed through even when `None`). -/
def list_objects (cfg : Config) (limit offset : Option Int) (up : Upstream) : ToolOutcome :=
  requireKey cfg <|
    let params : List (String × Option Int) := [("limit", limit), ("offset", offset)]
    let url := cfg.BASE_URL ++ "/v2/objects"
    let req : Request := ⟨.GET, url, authHeaders cfg, params, none⟩
    ⟨[req], runB up plainOk⟩

/-- `create_object`: POST `/v2/objects` with payload `{"data": object_data}`. -/
def create_object (cfg : Config) (object_data : Json) (up : Upstream) : ToolOutcome :=
  requireKey cfg <|
    let payload : Json := .obj [("data", object_data)]
    let url := cfg.BASE_URL ++ "/v2/objects"
    let req : Request := ⟨.POST, url, jsonHeaders cfg, [], some payload⟩
    ⟨[req], runB up plainOk⟩

/-- `get_object`: GET `/v2/objects/{object_id_or_slug}`. -/
def get_object (cfg : Config) (object_id_or_slug : String) (up : Upstream) : ToolOutcome :=
  requireKey cfg <|
    let url := cfg.BASE_URL ++ "/v2/objects/" ++ object_id_or_slug
    let req : Request := ⟨.GET, url, authHeaders cfg, [], none⟩
    ⟨[req], runB up plainOk⟩

/-- `update_object`: PATCH `/v2/objects/{object_id_or_slug}` with payload
`{"data": object_data}`. -/
def update_object (cfg : Config) (object_id_or_slug : String) (object_data : Json)
    (up : Upstream) : ToolOutcome :=
  requireKey cfg <|
    let payload : Json := .obj [("data", object_data)]
    let url := cfg.BASE_URL ++ "/v2/objects/" ++ object_id_or_slug
    let req : Request := ⟨.PATCH, url, jsonHeaders cfg, [], some payload⟩
    ⟨[req], runB up plainOk⟩

/-! ## `src/tasks/tools.py` -/

/-- `list_tasks`: GET `/v2/tasks`. -/
def list_tasks (cfg : Config) (up : Upstream) : ToolOutcome :=
  requireKey cfg <|
    let url := cfg.BASE_URL ++ "/v2/tasks"
    let req : Request := ⟨.GET, url, authHeaders cfg, [], none⟩
    ⟨[req], runB up plainOk⟩

/-- `create_task`: POST `/v2/tasks` with payload `{"data": task_data}`. -/
def create_task (cfg : Config) (task_data : Json) (up : Upstream) : ToolOutcome :=
  requireKey cfg <|
    let payload : Json := .obj [("data", task_data)]
    let url := cfg.BASE_URL ++ "/v2/tasks"
    let req : Request := ⟨.POST, url, jsonHeaders cfg, [], some payload⟩
    ⟨[req], runB up plainOk⟩

/-- `get_task`: GET `/v2/tasks/{task_id}`. -/
def get_task (cfg : Config) (task_id : String) (up : Upstream) : ToolOutcome :=
  requireKey cfg <|
    let url := cfg.BASE_URL ++ "/v2/tasks/" ++ task_id
    let req : Request := ⟨.GET, url, authHeaders cfg, [], none⟩
    ⟨[req], runB up plainOk⟩

/-- `update_task`: PATCH `/v2/tasks/{task_id}` with payload `{"data": task_data}`. -/
def update_task (cfg : Config) (task_id : String) (task_data : Json)
    (up : Upstream) : ToolOutcome :=
  requireKey cfg <|
    let payload : Json := .obj [("data", task_data)]
    let url := cfg.BASE_URL ++ "/v2/tasks/" ++ task_id
    let req : Request := ⟨.PATCH, url, jsonHeaders cfg, [], some payload⟩
    ⟨[req], runB up plainOk⟩

/-- The success dictionary `delete_task` returns on a 204. -/
def deleteTaskSuccess (task_id : String) : Json :=
  .obj [("message", .str ("Task " ++ task_id ++ " deleted successfully."))]

/-- `delete_task`: DELETE `/v2/tasks/{task_id}`; the success path checks
`status_code == 204` before falling back to `response.json()`. -/
def delete_task (cfg : Config) (task_id : String) (up : Upstream) : ToolOutcome :=
  requireKey cfg <|
    let url := cfg.BASE_URL ++ "/v2/tasks/" ++ task_id
    let req : Request := ⟨.DELETE, url, authHeaders cfg, [], none⟩
    let onOk : Nat → Body → Except PyExc Json := fun status body =>
      if status == 204 then .ok (deleteTaskSuccess task_id) else body.jsonE
    ⟨[req], runB up onOk⟩

/-! ## `src/workspace_members/tools.py` -/

/-- `list_workspace_members`: GET `/v2/workspace_members`. -/
def list_workspace_members (cfg : Config) (up : Upstream) : ToolOutcome :=
  requireKey cfg <|
    let url := cfg.BASE_URL ++ "/v2/workspace_members"
    let req : Request := ⟨.GET, url, authHeaders cfg, [], none⟩
    ⟨[req], runB up plainOk⟩

/-- `get_workspace_member`: GET `/v2/workspace_members/{workspace_member_id}`. -/
def get_workspace_member (cfg : Config) (workspace_member_id : String)
    (up : Upstream) : ToolOutcome :=
  requireKey cfg <|
    let url := cfg.BASE_URL ++ "/v2/workspace_members/" ++ workspace_member_id
    let req : Request := ⟨.GET, url, authHeaders cfg, [], none⟩
    ⟨[req], runB up plainOk⟩

/-! ## Shared lemmas -/

/-- A fixed configuration with a credential, for concrete instances. -/
def cfg0 : Config := ⟨"https://api.attio.com", some "secret"⟩

/-- A fixed configuration without a credential. -/
def cfgNoKey : Config := ⟨"https://api.attio.com", none⟩

/-- The message CPython's `json` module raises on an empty document. -/
def emptyBodyMsg : String := "Expecting value: line 1 column 1 (char 0)"

theorem requireKey_of_not (cfg : Config) (k : ToolOutcome) (h : cfg.keySet = false) :
    requireKey cfg k = ⟨[], errNoKey⟩ := by
  simp [requireKey, h]

theorem requireKey_of (cfg : Config) (k : ToolOutcome) (h : cfg.keySet = true) :
    requireKey cfg k = k := by
  simp [requireKey, h]

theorem requireTargetType_of_not (target_type : String) (k : ToolOutcome)
    (h1 : target_type ≠ "objects") (h2 : target_type ≠ "lists") :
    requireTargetType target_type k = ⟨[], errInvalidTT⟩ := by
  simp [requireTargetType, h1, h2]

theorem requireTargetType_of (target_type : String) (k : ToolOutcome)
    (h : target_type = "objects" ∨ target_type = "lists") :
    requireTargetType target_type k = k := by
  simp [requireTargetType, h]

theorem cfg0_keySet : cfg0.keySet = true := rfl

/-! ## Claim theorems -/

/-- C1: the spec claims all four DELETE tools treat an upstream `204 No
Content` with empty body as success.  `delete_record`, `delete_note` and
`delete_task` do (they check `status_code == 204` before decoding), but
`delete_list_entry` JSON-decodes the empty body unconditionally, so the
raised `JSONDecodeError` lands in `except Exception` and the tool returns an
error-tagged result on its own documented success path. -/
theorem c1_delete_tools_on_204_empty_body :
    (delete_record cfg0 "people" "r1" (.reply 204 (.undecodable "" emptyBodyMsg))).result
        = deleteRecordSuccess "r1"
  ∧ (delete_note cfg0 "n1" (.reply 204 (.undecodable "" emptyBodyMsg))).result
        = deleteNoteSuccess "n1"
  ∧ (delete_task cfg0 "t1" (.reply 204 (.undecodable "" emptyBodyMsg))).result
        = deleteTaskSuccess "t1"
  ∧ (delete_list_entry cfg0 "l1" "e1" (.reply 204 (.undecodable "" emptyBodyMsg))).result
        = .obj [("error", .str ("An unexpected error occurred: " ++ emptyBodyMsg))]
  ∧ (Json.hasErrorKey (.obj [("error", .str ("An unexpected error occurred: " ++ emptyBodyMsg))])
        = true)
  ∧ Json.hasErrorKey (deleteRecordSuccess "r1") = false :=
  ⟨rfl, rfl, rfl, rfl, rfl, rfl⟩

/-- C7: `list_entries` with `list_id="abc"`, `limit=10`, `offset=0`, no
filter and no sorts issues exactly one POST to
`<base>/v2/lists/abc/entries/query` whose body is exactly
`{"limit": 10, "offset": 0}` — no `filter` or `sorts` keys. -/
theorem c7_list_entries_concrete_request (cfg : Config) (up : Upstream)
    (h : cfg.keySet = true) :
    (list_entries cfg "abc" none none 10 0 up).requests
      = [⟨.POST, cfg.BASE_URL ++ "/v2/lists/abc/entries/query", jsonHeaders cfg, [],
          some (.obj [("limit", .num 10), ("offset", .num 0)])⟩] := by
  simp [list_entries, requireKey_of _ _ h, pyTruthy, String.append_assoc]

/-- Witness for C7 at a concrete configuration and upstream. -/
theorem c7_list_entries_concrete_request_witness :
    (list_entries cfg0 "abc" none none 10 0 (.transportErr "boom")).requests
      = [⟨.POST, cfg0.BASE_URL ++ "/v2/lists/abc/entries/query", jsonHeaders cfg0, [],
          some (.obj [("limit", .num 10), ("offset", .num 0)])⟩] :=
  c7_list_entries_concrete_request cfg0 (.transportErr "boom") rfl

/-- C4: whenever the configured credential is absent (`API_KEY` unset or
empty), every one of the 43 tool functions returns the configuration-error
dictionary and issues zero requests.  One conjunct per tool. -/
theorem c4_no_key_no_network :
    (∀ cfg a b up, Config.keySet cfg = false → create_list_entry cfg a b up = ⟨[], errNoKey⟩)
  ∧ (∀ cfg a b up, Config.keySet cfg = false → get_list_entry cfg a b up = ⟨[], errNoKey⟩)
  ∧ (∀ cfg a f so l o up, Config.keySet cfg = false → list_entries cfg a f so l o up = ⟨[], errNoKey⟩)
  ∧ (∀ cfg a b d up, Config.keySet cfg = false → update_list_entry_overwrite cfg a b d up = ⟨[], errNoKey⟩)
  ∧ (∀ cfg a b d up, Config.keySet cfg = false → update_list_entry_append cfg a b d up = ⟨[], errNoKey⟩)
  ∧ (∀ cfg a b up, Config.keySet cfg = false → delete_list_entry cfg a b up = ⟨[], errNoKey⟩)
  ∧ (∀ cfg a b c up, Config.keySet cfg = false → get_list_entry_attribute_values cfg a b c up = ⟨[], errNoKey⟩)
  ∧ (∀ cfg a b up, Config.keySet cfg = false → get_record cfg a b up = ⟨[], errNoKey⟩)
  ∧ (∀ cfg a b d up, Config.keySet cfg = false → update_record_overwrite cfg a b d up = ⟨[], errNoKey⟩)
  ∧ (∀ cfg a b d up, Config.keySet cfg = false → update_record_append cfg a b d up = ⟨[], errNoKey⟩)
  ∧ (∀ cfg a b up, Config.keySet cfg = false → delete_record cfg a b up = ⟨[], errNoKey⟩)
  ∧ (∀ cfg a b l o up, Config.keySet cfg = false → list_record_entries cfg a b l o up = ⟨[], errNoKey⟩)
  ∧ (∀ cfg a f so l o up, Config.keySet cfg = false → list_records cfg a f so l o up = ⟨[], errNoKey⟩)
  ∧ (∀ cfg a d up, Config.keySet cfg = false → create_record cfg a d up = ⟨[], errNoKey⟩)
  ∧ (∀ cfg l o up, Config.keySet cfg = false → list_lists cfg l o up = ⟨[], errNoKey⟩)
  ∧ (∀ cfg d up, Config.keySet cfg = false → create_list cfg d up = ⟨[], errNoKey⟩)
  ∧ (∀ cfg a up, Config.keySet cfg = false → get_list cfg a up = ⟨[], errNoKey⟩)
  ∧ (∀ cfg a d up, Config.keySet cfg = false → update_list cfg a d up = ⟨[], errNoKey⟩)
  ∧ (∀ cfg t i l o up, Config.keySet cfg = false → list_attributes cfg t i l o up = ⟨[], errNoKey⟩)
  ∧ (∀ cfg t i d up, Config.keySet cfg = false → create_attribute cfg t i d up = ⟨[], errNoKey⟩)
  ∧ (∀ cfg t i a up, Config.keySet cfg = false → get_attribute cfg t i a up = ⟨[], errNoKey⟩)
  ∧ (∀ cfg t i a d up, Config.keySet cfg = false → update_attribute cfg t i a d up = ⟨[], errNoKey⟩)
  ∧ (∀ cfg t i a l o up, Config.keySet cfg = false → list_select_options cfg t i a l o up = ⟨[], errNoKey⟩)
  ∧ (∀ cfg t i a d up, Config.keySet cfg = false → create_select_option cfg t i a d up = ⟨[], errNoKey⟩)
  ∧ (∀ cfg t i a oi d up, Config.keySet cfg = false → update_select_option cfg t i a oi d up = ⟨[], errNoKey⟩)
  ∧ (∀ cfg t i a l o up, Config.keySet cfg = false → list_statuses cfg t i a l o up = ⟨[], errNoKey⟩)
  ∧ (∀ cfg t i a d up, Config.keySet cfg = false → create_status cfg t i a d up = ⟨[], errNoKey⟩)
  ∧ (∀ cfg t i a si d up, Config.keySet cfg = false → update_status cfg t i a si d up = ⟨[], errNoKey⟩)
  ∧ (∀ cfg up, Config.keySet cfg = false → list_notes cfg up = ⟨[], errNoKey⟩)
  ∧ (∀ cfg d up, Config.keySet cfg = false → create_note cfg d up = ⟨[], errNoKey⟩)
  ∧ (∀ cfg a up, Config.keySet cfg = false → get_note cfg a up = ⟨[], errNoKey⟩)
  ∧ (∀ cfg a up, Config.keySet cfg = false → delete_note cfg a up = ⟨[], errNoKey⟩)
  ∧ (∀ cfg l o up, Config.keySet cfg = false → list_objects cfg l o up = ⟨[], errNoKey⟩)
  ∧ (∀ cfg d up, Config.keySet cfg = false → create_object cfg d up = ⟨[], errNoKey⟩)
  ∧ (∀ cfg a up, Config.keySet cfg = false → get_object cfg a up = ⟨[], errNoKey⟩)
  ∧ (∀ cfg a d up, Config.keySet cfg = false → update_object cfg a d up = ⟨[], errNoKey⟩)
  ∧ (∀ cfg up, Config.keySet cfg = false → list_tasks cfg up = ⟨[], errNoKey⟩)
  ∧ (∀ cfg d up, Config.keySet cfg = false → create_task cfg d up = ⟨[], errNoKey⟩)
  ∧ (∀ cfg a up, Config.keySet cfg = false → get_task cfg a up = ⟨[], errNoKey⟩)
  ∧ (∀ cfg a d up, Config.keySet cfg = false → update_task cfg a d up = ⟨[], errNoKey⟩)
  ∧ (∀ cfg a up, Config.keySet cfg = false → delete_task cfg a up = ⟨[], errNoKey⟩)
  ∧ (∀ cfg up, Config.keySet cfg = false → list_workspace_members cfg up = ⟨[], errNoKey⟩)
  ∧ (∀ cfg a up, Config.keySet cfg = false → get_workspace_member cfg a up = ⟨[], errNoKey⟩) :=
  ⟨fun cfg _ _ _ h => requireKey_of_not cfg _ h,
   fun cfg _ _ _ h => requireKey_of_not cfg _ h,
   fun cfg _ _ _ _ _ _ h => requireKey_of_not cfg _ h,
   fun cfg _ _ _ _ h => requireKey_of_not cfg _ h,
   fun cfg _ _ _ _ h => requireKey_of_not cfg _ h,
   fun cfg _ _ _ h => requireKey_of_not cfg _ h,
   fun cfg _ _ _ _ h => requireKey_of_not cfg _ h,
   fun cfg _ _ _ h => requireKey_of_not cfg _ h,
   fun cfg _ _ _ _ h => requireKey_of_not cfg _ h,
   fun cfg _ _ _ _ h => requireKey_of_not cfg _ h,
   fun cfg _ _ _ h => requireKey_of_not cfg _ h,
   fun cfg _ _ _ _ _ h => requireKey_of_not cfg _ h,
   fun cfg _ _ _ _ _ _ h => requireKey_of_not cfg _ h,
   fun cfg _ _ _ h => requireKey_of_not cfg _ h,
   fun cfg _ _ _ h => requireKey_of_not cfg _ h,
   fun cfg _ _ h => requireKey_of_not cfg _ h,
   fun cfg _ _ h => requireKey_of_not cfg _ h,
   fun cfg _ _ _ h => requireKey_of_not cfg _ h,
   fun cfg _ _ _ _ _ h => requireKey_of_not cfg _ h,
   fun cfg _ _ _ _ h => requireKey_of_not cfg _ h,
   fun cfg _ _ _ _ h => requireKey_of_not cfg _ h,
   fun cfg _ _ _ _ _ h => requireKey_of_not cfg _ h,
   fun cfg _ _ _ _ _ _ h => requireKey_of_not cfg _ h,
   fun cfg _ _ _ _ _ h => requireKey_of_not cfg _ h,
   fun cfg _ _ _ _ _ _ h => requireKey_of_not cfg _ h,
   fun cfg _ _ _ _ _ _ h => requireKey_of_not cfg _ h,
   fun cfg _ _ _ _ _ h => requireKey_of_not cfg _ h,
   fun cfg _ _ _ _ _ _ h => requireKey_of_not cfg _ h,
   fun cfg _ h => requireKey_of_not cfg _ h,
   fun cfg _ _ h => requireKey_of_not cfg _ h,
   fun cfg _ _ h => requireKey_of_not cfg _ h,
   fun cfg _ _ h => requireKey_of_not cfg _ h,
   fun cfg _ _ _ h => requireKey_of_not cfg _ h,
   fun cfg _ _ h => requireKey_of_not cfg _ h,
   fun cfg _ _ h => requireKey_of_not cfg _ h,
   fun cfg _ _ _ h => requireKey_of_not cfg _ h,
   fun cfg _ h => requireKey_of_not cfg _ h,
   fun cfg _ _ h => requireKey_of_not cfg _ h,
   fun cfg _ _ h => requireKey_of_not cfg _ h,
   fun cfg _ _ _ h => requireKey_of_not cfg _ h,
   fun cfg _ _ h => requireKey_of_not cfg _ h,
   fun cfg _ h => requireKey_of_not cfg _ h,
   fun cfg _ _ h => requireKey_of_not cfg _ h⟩

/-- Witness for C4: a concrete invocation with no credential configured. -/
theorem c4_no_key_no_network_witness :
    create_list_entry cfgNoKey "list1" (.obj []) (.transportErr "boom") = ⟨[], errNoKey⟩ :=
  c4_no_key_no_network.1 cfgNoKey "list1" (.obj []) (.transportErr "boom") rfl

/-- C5: with a credential configured, every attribute, select-option and
status tool rejects a `target_type` outside `{"objects", "lists"}` with the
validation-error dictionary and issues zero requests.  One conjunct per
tool taking a `target_type`. -/
theorem c5_target_type_validation :
    (∀ cfg t i l o up, Config.keySet cfg = true → t ≠ "objects" → t ≠ "lists" →
        list_attributes cfg t i l o up = ⟨[], errInvalidTT⟩)
  ∧ (∀ cfg t i d up, Config.keySet cfg = true → t ≠ "objects" → t ≠ "lists" →
        create_attribute cfg t i d up = ⟨[], errInvalidTT⟩)
  ∧ (∀ cfg t i a up, Config.keySet cfg = true → t ≠ "objects" → t ≠ "lists" →
        get_attribute cfg t i a up = ⟨[], errInvalidTT⟩)
  ∧ (∀ cfg t i a d up, Config.keySet cfg = true → t ≠ "objects" → t ≠ "lists" →
        update_attribute cfg t i a d up = ⟨[], errInvalidTT⟩)
  ∧ (∀ cfg t i a l o up, Config.keySet cfg = true → t ≠ "objects" → t ≠ "lists" →
        list_select_options cfg t i a l o up = ⟨[], errInvalidTT⟩)
  ∧ (∀ cfg t i a d up, Config.keySet cfg = true → t ≠ "objects" → t ≠ "lists" →
        create_select_option cfg t i a d up = ⟨[], errInvalidTT⟩)
  ∧ (∀ cfg t i a oi d up, Config.keySet cfg = true → t ≠ "objects" → t ≠ "lists" →
        update_select_option cfg t i a oi d up = ⟨[], errInvalidTT⟩)
  ∧ (∀ cfg t i a l o up, Config.keySet cfg = true → t ≠ "objects" → t ≠ "lists" →
        list_statuses cfg t i a l o up = ⟨[], errInvalidTT⟩)
  ∧ (∀ cfg t i a d up, Config.keySet cfg = true → t ≠ "objects" → t ≠ "lists" →
        create_status cfg t i a d up = ⟨[], errInvalidTT⟩)
  ∧ (∀ cfg t i a si d up, Config.keySet cfg = true → t ≠ "objects" → t ≠ "lists" →
        update_status cfg t i a si d up = ⟨[], errInvalidTT⟩) :=
  ⟨fun cfg t _ _ _ _ hk h1 h2 =>
      (requireKey_of cfg _ hk).trans (requireTargetType_of_not t _ h1 h2),
   fun cfg t _ _ _ hk h1 h2 =>
      (requireKey_of cfg _ hk).trans (requireTargetType_of_not t _ h1 h2),
   fun cfg t _ _ _ hk h1 h2 =>
      (requireKey_of cfg _ hk).trans (requireTargetType_of_not t _ h1 h2),
   fun cfg t _ _ _ _ hk h1 h2 =>
      (requireKey_of cfg _ hk).trans (requireTargetType_of_not t _ h1 h2),
   fun cfg t _ _ _ _ _ hk h1 h2 =>
      (requireKey_of cfg _ hk).trans (requireTargetType_of_not t _ h1 h2),
   fun cfg t _ _ _ _ hk h1 h2 =>
      (requireKey_of cfg _ hk).trans (requireTargetType_of_not t _ h1 h2),
   fun cfg t _ _ _ _ _ hk h1 h2 =>
      (requireKey_of cfg _ hk).trans (requireTargetType_of_not t _ h1 h2),
   fun cfg t _ _ _ _ _ hk h1 h2 =>
      (requireKey_of cfg _ hk).trans (requireTargetType_of_not t _ h1 h2),
   fun cfg t _ _ _ _ hk h1 h2 =>
      (requireKey_of cfg _ hk).trans (requireTargetType_of_not t _ h1 h2),
   fun cfg t _ _ _ _ _ hk h1 h2 =>
      (requireKey_of cfg _ hk).trans (requireTargetType_of_not t _ h1 h2)⟩

/-- Witness for C5: a concrete invocation with an out-of-range target type. -/
theorem c5_target_type_validation_witness :
    list_attributes cfg0 "records" "people" (some 50) (some 0) (.transportErr "boom")
      = ⟨[], errInvalidTT⟩ :=
  c5_target_type_validation.1 cfg0 "records" "people" (some 50) (some 0)
    (.transportErr "boom") rfl (by decide) (by decide)

theorem requireKey_count (cfg : Config) (r : Request) (j : Json) :
    ((requireKey cfg ⟨[r], j⟩).requests.length ≤ 1)
  ∧ ((requireKey cfg ⟨[r], j⟩).requests.length = 1 ↔ cfg.keySet = true) := by
  cases h : cfg.keySet <;> simp [requireKey, h]

theorem requireKeyTT_count (cfg : Config) (t : String) (r : Request) (j : Json) :
    ((requireKey cfg (requireTargetType t ⟨[r], j⟩)).requests.length ≤ 1)
  ∧ ((requireKey cfg (requireTargetType t ⟨[r], j⟩)).requests.length = 1 ↔
      cfg.keySet = true ∧ (t = "objects" ∨ t = "lists")) := by
  cases h : cfg.keySet <;> by_cases ht : (t = "objects" ∨ t = "lists") <;>
    simp [requireKey, requireTargetType, h, ht]

/-- C8: every invocation of every tool attempts at most one network call —
exactly one when the credential is configured (and, for the tools that take
one, the `target_type` validation passes), and zero otherwise.  One conjunct
per tool. -/
theorem c8_at_most_one_call :
    (∀ cfg a b up, (create_list_entry cfg a b up).requests.length ≤ 1
        ∧ ((create_list_entry cfg a b up).requests.length = 1 ↔ Config.keySet cfg = true))
  ∧ (∀ cfg a b up, (get_list_entry cfg a b up).requests.length ≤ 1
        ∧ ((get_list_entry cfg a b up).requests.length = 1 ↔ Config.keySet cfg = true))
  ∧ (∀ cfg a f so l o up, (list_entries cfg a f so l o up).requests.length ≤ 1
        ∧ ((list_entries cfg a f so l o up).requests.length = 1 ↔ Config.keySet cfg = true))
  ∧ (∀ cfg a b d up, (update_list_entry_overwrite cfg a b d up).requests.length ≤ 1
        ∧ ((update_list_entry_overwrite cfg a b d up).requests.length = 1 ↔ Config.keySet cfg = true))
  ∧ (∀ cfg a b d up, (update_list_entry_append cfg a b d up).requests.length ≤ 1
        ∧ ((update_list_entry_append cfg a b d up).requests.length = 1 ↔ Config.keySet cfg = true))
  ∧ (∀ cfg a b up, (delete_list_entry cfg a b up).requests.length ≤ 1
        ∧ ((delete_list_entry cfg a b up).requests.length = 1 ↔ Config.keySet cfg = true))
  ∧ (∀ cfg a b c up, (get_list_entry_attribute_values cfg a b c up).requests.length ≤ 1
        ∧ ((get_list_entry_attribute_values cfg a b c up).requests.length = 1 ↔ Config.keySet cfg = true))
  ∧ (∀ cfg a b up, (get_record cfg a b up).requests.length ≤ 1
        ∧ ((get_record cfg a b up).requests.length = 1 ↔ Config.keySet cfg = true))
  ∧ (∀ cfg a b d up, (update_record_overwrite cfg a b d up).requests.length ≤ 1
        ∧ ((update_record_overwrite cfg a b d up).requests.length = 1 ↔ Config.keySet cfg = true))
  ∧ (∀ cfg a b d up, (update_record_append cfg a b d up).requests.length ≤ 1
        ∧ ((update_record_append cfg a b d up).requests.length = 1 ↔ Config.keySet cfg = true))
  ∧ (∀ cfg a b up, (delete_record cfg a b up).requests.length ≤ 1
        ∧ ((delete_record cfg a b up).requests.length = 1 ↔ Config.keySet cfg = true))
  ∧ (∀ cfg a b l o up, (list_record_entries cfg a b l o up).requests.length ≤ 1
        ∧ ((list_record_entries cfg a b l o up).requests.length = 1 ↔ Config.keySet cfg = true))
  ∧ (∀ cfg a f so l o up, (list_records cfg a f so l o up).requests.length ≤ 1
        ∧ ((list_records cfg a f so l o up).requests.length = 1 ↔ Config.keySet cfg = true))
  ∧ (∀ cfg a d up, (create_record cfg a d up).requests.length ≤ 1
        ∧ ((create_record cfg a d up).requests.length = 1 ↔ Config.keySet cfg = true))
  ∧ (∀ cfg l o up, (list_lists cfg l o up).requests.length ≤ 1
        ∧ ((list_lists cfg l o up).requests.length = 1 ↔ Config.keySet cfg = true))
  ∧ (∀ cfg d up, (create_list cfg d up).requests.length ≤ 1
        ∧ ((create_list cfg d up).requests.length = 1 ↔ Config.keySet cfg = true))
  ∧ (∀ cfg a up, (get_list cfg a up).requests.length ≤ 1
        ∧ ((get_list cfg a up).requests.length = 1 ↔ Config.keySet cfg = true))
  ∧ (∀ cfg a d up, (update_list cfg a d up).requests.length ≤ 1
        ∧ ((update_list cfg a d up).requests.length = 1 ↔ Config.keySet cfg = true))
  ∧ (∀ cfg t i l o up, (list_attributes cfg t i l o up).requests.length ≤ 1
        ∧ ((list_attributes cfg t i l o up).requests.length = 1 ↔
            Config.keySet cfg = true ∧ (t = "objects" ∨ t = "lists")))
  ∧ (∀ cfg t i d up, (create_attribute cfg t i d up).requests.length ≤ 1
        ∧ ((create_attribute cfg t i d up).requests.length = 1 ↔
            Config.keySet cfg = true ∧ (t = "objects" ∨ t = "lists")))
  ∧ (∀ cfg t i a up, (get_attribute cfg t i a up).requests.length ≤ 1
        ∧ ((get_attribute cfg t i a up).requests.length = 1 ↔
            Config.keySet cfg = true ∧ (t = "objects" ∨ t = "lists")))
  ∧ (∀ cfg t i a d up, (update_attribute cfg t i a d up).requests.length ≤ 1
        ∧ ((update_attribute cfg t i a d up).requests.length = 1 ↔
            Config.keySet cfg = true ∧ (t = "objects" ∨ t = "lists")))
  ∧ (∀ cfg t i a l o up, (list_select_options cfg t i a l o up).requests.length ≤ 1
        ∧ ((list_select_options cfg t i a l o up).requests.length = 1 ↔
            Config.keySet cfg = true ∧ (t = "objects" ∨ t = "lists")))
  ∧ (∀ cfg t i a d up, (create_select_option cfg t i a d up).requests.length ≤ 1
        ∧ ((create_select_option cfg t i a d up).requests.length = 1 ↔
            Config.keySet cfg = true ∧ (t = "objects" ∨ t = "lists")))
  ∧ (∀ cfg t i a oi d up, (update_select_option cfg t i a oi d up).requests.length ≤ 1
        ∧ ((update_select_option cfg t i a oi d up).requests.length = 1 ↔
            Config.keySet cfg = true ∧ (t = "objects" ∨ t = "lists")))
  ∧ (∀ cfg t i a l o up, (list_statuses cfg t i a l o up).requests.length ≤ 1
        ∧ ((list_statuses cfg t i a l o up).requests.length = 1 ↔
            Config.keySet cfg = true ∧ (t = "objects" ∨ t = "lists")))
  ∧ (∀ cfg t i a d up, (create_status cfg t i a d up).requests.length ≤ 1
        ∧ ((create_status cfg t i a d up).requests.length = 1 ↔
            Config.keySet cfg = true ∧ (t = "objects" ∨ t = "lists")))
  ∧ (∀ cfg t i a si d up, (update_status cfg t i a si d up).requests.length ≤ 1
        ∧ ((update_status cfg t i a si d up).requests.length = 1 ↔
            Config.keySet cfg = true ∧ (t = "objects" ∨ t = "lists")))
  ∧ (∀ cfg up, (list_notes cfg up).requests.length ≤ 1
        ∧ ((list_notes cfg up).requests.length = 1 ↔ Config.keySet cfg = true))
  ∧ (∀ cfg d up, (create_note cfg d up).requests.length ≤ 1
        ∧ ((create_note cfg d up).requests.length = 1 ↔ Config.keySet cfg = true))
  ∧ (∀ cfg a up, (get_note cfg a up).requests.length ≤ 1
        ∧ ((get_note cfg a up).requests.length = 1 ↔ Config.keySet cfg = true))
  ∧ (∀ cfg a up, (delete_note cfg a up).requests.length ≤ 1
        ∧ ((delete_note cfg a up).requests.length = 1 ↔ Config.keySet cfg = true))
  ∧ (∀ cfg l o up, (list_objects cfg l o up).requests.length ≤ 1
        ∧ ((list_objects cfg l o up).requests.length = 1 ↔ Config.keySet cfg = true))
  ∧ (∀ cfg d up, (create_object cfg d up).requests.length ≤ 1
        ∧ ((create_object cfg d up).requests.length = 1 ↔ Config.keySet cfg = true))
  ∧ (∀ cfg a up, (get_object cfg a up).requests.length ≤ 1
        ∧ ((get_object cfg a up).requests.length = 1 ↔ Config.keySet cfg = true))
  ∧ (∀ cfg a d up, (update_object cfg a d up).requests.length ≤ 1
        ∧ ((update_object cfg a d up).requests.length = 1 ↔ Config.keySet cfg = true))
  ∧ (∀ cfg up, (list_tasks cfg up).requests.length ≤ 1
        ∧ ((list_tasks cfg up).requests.length = 1 ↔ Config.keySet cfg = true))
  ∧ (∀ cfg d up, (create_task cfg d up).requests.length ≤ 1
        ∧ ((create_task cfg d up).requests.length = 1 ↔ Config.keySet cfg = true))
  ∧ (∀ cfg a up, (get_task cfg a up).requests.length ≤ 1
        ∧ ((get_task cfg a up).requests.length = 1 ↔ Config.keySet cfg = true))
  ∧ (∀ cfg a d up, (update_task cfg a d up).requests.length ≤ 1
        ∧ ((update_task cfg a d up).requests.length = 1 ↔ Config.keySet cfg = true))
  ∧ (∀ cfg a up, (delete_task cfg a up).requests.length ≤ 1
        ∧ ((delete_task cfg a up).requests.length = 1 ↔ Config.keySet cfg = true))
  ∧ (∀ cfg up, (list_workspace_members cfg up).requests.length ≤ 1
        ∧ ((list_workspace_members cfg up).requests.length = 1 ↔ Config.keySet cfg = true))
  ∧ (∀ cfg a up, (get_workspace_member cfg a up).requests.length ≤ 1
        ∧ ((get_workspace_member cfg a up).requests.length = 1 ↔ Config.keySet cfg = true)) :=
  ⟨fun cfg _ _ _ => requireKey_count cfg _ _,
   fun cfg _ _ _ => requireKey_count cfg _ _,
   fun cfg _ _ _ _ _ _ => requireKey_count cfg _ _,
   fun cfg _ _ _ _ => requireKey_count cfg _ _,
   fun cfg _ _ _ _ => requireKey_count cfg _ _,
   fun cfg _ _ _ => requireKey_count cfg _ _,
   fun cfg _ _ _ _ => requireKey_count cfg _ _,
   fun cfg _ _ _ => requireKey_count cfg _ _,
   fun cfg _ _ _ _ => requireKey_count cfg _ _,
   fun cfg _ _ _ _ => requireKey_count cfg _ _,
   fun cfg _ _ _ => requireKey_count cfg _ _,
   fun cfg _ _ _ _ _ => requireKey_count cfg _ _,
   fun cfg _ _ _ _ _ _ => requireKey_count cfg _ _,
   fun cfg _ _ _ => requireKey_count cfg _ _,
   fun cfg _ _ _ => requireKey_count cfg _ _,
   fun cfg _ _ => requireKey_count cfg _ _,
   fun cfg _ _ => requireKey_count cfg _ _,
   fun cfg _ _ _ => requireKey_count cfg _ _,
   fun cfg t _ _ _ _ => requireKeyTT_count cfg t _ _,
   fun cfg t _ _ _ => requireKeyTT_count cfg t _ _,
   fun cfg t _ _ _ => requireKeyTT_count cfg t _ _,
   fun cfg t _ _ _ _ => requireKeyTT_count cfg t _ _,
   fun cfg t _ _ _ _ _ => requireKeyTT_count cfg t _ _,
   fun cfg t _ _ _ _ => requireKeyTT_count cfg t _ _,
   fun cfg t _ _ _ _ _ => requireKeyTT_count cfg t _ _,
   fun cfg t _ _ _ _ _ => requireKeyTT_count cfg t _ _,
   fun cfg t _ _ _ _ => requireKeyTT_count cfg t _ _,
   fun cfg t _ _ _ _ _ => requireKeyTT_count cfg t _ _,
   fun cfg _ => requireKey_count cfg _ _,
   fun cfg _ _ => requireKey_count cfg _ _,
   fun cfg _ _ => requireKey_count cfg _ _,
   fun cfg _ _ => requireKey_count cfg _ _,
   fun cfg _ _ _ => requireKey_count cfg _ _,
   fun cfg _ _ => requireKey_count cfg _ _,
   fun cfg _ _ => requireKey_count cfg _ _,
   fun cfg _ _ _ => requireKey_count cfg _ _,
   fun cfg _ => requireKey_count cfg _ _,
   fun cfg _ _ => requireKey_count cfg _ _,
   fun cfg _ _ => requireKey_count cfg _ _,
   fun cfg _ _ _ => requireKey_count cfg _ _,
   fun cfg _ _ => requireKey_count cfg _ _,
   fun cfg _ => requireKey_count cfg _ _,
   fun cfg _ _ => requireKey_count cfg _ _⟩

theorem beq_204_eq_false {s : Nat} (h : is2xx s = false) : (s == 204) = false := by
  rcases eq_or_ne s 204 with rfl | h'
  · simp [is2xx] at h
  · simpa using h'

theorem runA_non2xx (url : String) (onOk : Nat → Body → Except PyExc Json)
    {s : Nat} (b : Body) (h : is2xx s = false) :
    runA url (.reply s b) onOk
      = .obj [("error", .str ("API request failed with status " ++ toString s)),
              ("details", b.decodeOrText)] := by
  simp [runA, attempt, h, classifyA]

theorem runB_non2xx (onOk : Nat → Body → Except PyExc Json)
    {s : Nat} (b : Body) (h : is2xx s = false) :
    runB (.reply s b) onOk
      = .obj [("error", .str ("API request failed: " ++ toString s)),
              ("details", .str b.text)] := by
  simp [runB, attempt, h, classifyB]

/-- C2 counterexample: `list_notes` (like every attributes/objects/notes/
tasks/workspace-members tool) answers a 404 with a JSON body with
`{"error": "API request failed: 404", "details": <raw text>}` — not the
`"API request failed with status 404"` message with JSON-decoded details
that the claim asserts for every tool. -/
theorem c2_counterexample_list_notes_404 :
    (list_notes cfg0 (.reply 404 (.decodable "\x7b\"code\": 404\x7d" (.obj [("code", .num 404)])))).result
      = .obj [("error", .str "API request failed: 404"), ("details", .str "\x7b\"code\": 404\x7d")]
  ∧ (Json.obj [("error", .str "API request failed: 404"), ("details", .str "\x7b\"code\": 404\x7d")]
      ≠ .obj [("error", .str "API request failed with status 404"),
              ("details", .obj [("code", .num 404)])]) := by
  constructor
  · rfl
  · simp


/-- C2 amended: with a credential configured (and a valid `target_type`
where one is taken), on a non-2xx reply the entries/records/lists tools
return exactly `{"error": "API request failed with status <c>", "details": d}`
with `d` the JSON-decoded body, falling back to the raw text when decoding
fails; the attributes/notes/objects/tasks/workspace-members tools instead
return `{"error": "API request failed: <c>", "details": <raw text>}` with no
decode attempt.  One conjunct per tool. -/
theorem c2_non2xx_error_results :
    (∀ cfg a b s bd, Config.keySet cfg = true → is2xx s = false →
        (create_list_entry cfg a b (.reply s bd)).result
          = .obj [("error", .str ("API request failed with status " ++ toString s)),
              ("details", Body.decodeOrText bd)])
  ∧ (∀ cfg a b s bd, Config.keySet cfg = true → is2xx s = false →
        (get_list_entry cfg a b (.reply s bd)).result
          = .obj [("error", .str ("API request failed with status " ++ toString s)),
              ("details", Body.decodeOrText bd)])
  ∧ (∀ cfg a f so l o s bd, Config.keySet cfg = true → is2xx s = false →
        (list_entries cfg a f so l o (.reply s bd)).result
          = .obj [("error", .str ("API request failed with status " ++ toString s)),
              ("details", Body.decodeOrText bd)])
  ∧ (∀ cfg a b d s bd, Config.keySet cfg = true → is2xx s = false →
        (update_list_entry_overwrite cfg a b d (.reply s bd)).result
          = .obj [("error", .str ("API request failed with status " ++ toString s)),
              ("details", Body.decodeOrText bd)])
  ∧ (∀ cfg a b d s bd, Config.keySet cfg = true → is2xx s = false →
        (update_list_entry_append cfg a b d (.reply s bd)).result
          = .obj [("error", .str ("API request failed with status " ++ toString s)),
              ("details", Body.decodeOrText bd)])
  ∧ (∀ cfg a b s bd, Config.keySet cfg = true → is2xx s = false →
        (delete_list_entry cfg a b (.reply s bd)).result
          = .obj [("error", .str ("API request failed with status " ++ toString s)),
              ("details", Body.decodeOrText bd)])
  ∧ (∀ cfg a b c s bd, Config.keySet cfg = true → is2xx s = false →
        (get_list_entry_attribute_values cfg a b c (.reply s bd)).result
          = .obj [("error", .str ("API request failed with status " ++ toString s)),
              ("details", Body.decodeOrText bd)])
  ∧ (∀ cfg a b s bd, Config.keySet cfg = true → is2xx s = false →
        (get_record cfg a b (.reply s bd)).result
          = .obj [("error", .str ("API request failed with status " ++ toString s)),
              ("details", Body.decodeOrText bd)])
  ∧ (∀ cfg a b d s bd, Config.keySet cfg = true → is2xx s = false →
        (update_record_overwrite cfg a b d (.reply s bd)).result
          = .obj [("error", .str ("API request failed with status " ++ toString s)),
              ("details", Body.decodeOrText bd)])
  ∧ (∀ cfg a b d s bd, Config.keySet cfg = true → is2xx s = false →
        (update_record_append cfg a b d (.reply s bd)).result
          = .obj [("error", .str ("API request failed with status " ++ toString s)),
              ("details", Body.decodeOrText bd)])
  ∧ (∀ cfg a b s bd, Config.keySet cfg = true → is2xx s = false →
        (delete_record cfg a b (.reply s bd)).result
          = .obj [("error", .str ("API request failed with status " ++ toString s)),
              ("details", Body.decodeOrText bd)])
  ∧ (∀ cfg a b l o s bd, Config.keySet cfg = true → is2xx s = false →
        (list_record_entries cfg a b l o (.reply s bd)).result
          = .obj [("error", .str ("API request failed with status " ++ toString s)),
              ("details", Body.decodeOrText bd)])
  ∧ (∀ cfg a f so l o s bd, Config.keySet cfg = true → is2xx s = false →
        (list_records cfg a f so l o (.reply s bd)).result
          = .obj [("error", .str ("API request failed with status " ++ toString s)),
              ("details", Body.decodeOrText bd)])
  ∧ (∀ cfg a d s bd, Config.keySet cfg = true → is2xx s = false →
        (create_record cfg a d (.reply s bd)).result
          = .obj [("error", .str ("API request failed with status " ++ toString s)),
              ("details", Body.decodeOrText bd)])
  ∧ (∀ cfg l o s bd, Config.keySet cfg = true → is2xx s = false →
        (list_lists cfg l o (.reply s bd)).result
          = .obj [("error", .str ("API request failed with status " ++ toString s)),
              ("details", Body.decodeOrText bd)])
  ∧ (∀ cfg d s bd, Config.keySet cfg = true → is2xx s = false →
        (create_list cfg d (.reply s bd)).result
          = .obj [("error", .str ("API request failed with status " ++ toString s)),
              ("details", Body.decodeOrText bd)])
  ∧ (∀ cfg a s bd, Config.keySet cfg = true → is2xx s = false →
        (get_list cfg a (.reply s bd)).result
          = .obj [("error", .str ("API request failed with status " ++ toString s)),
              ("details", Body.decodeOrText bd)])
  ∧ (∀ cfg a d s bd, Config.keySet cfg = true → is2xx s = false →
        (update_list cfg a d (.reply s bd)).result
          = .obj [("error", .str ("API request failed with status " ++ toString s)),
              ("details", Body.decodeOrText bd)])
  ∧ (∀ cfg t i l o s bd, Config.keySet cfg = true → (t = "objects" ∨ t = "lists") →
        is2xx s = false →
        (list_attributes cfg t i l o (.reply s bd)).result
          = .obj [("error", .str ("API request failed: " ++ toString s)),
              ("details", .str (Body.text bd))])
  ∧ (∀ cfg t i d s bd, Config.keySet cfg = true → (t = "objects" ∨ t = "lists") →
        is2xx s = false →
        (create_attribute cfg t i d (.reply s bd)).result
          = .obj [("error", .str ("API request failed: " ++ toString s)),
              ("details", .str (Body.text bd))])
  ∧ (∀ cfg t i a s bd, Config.keySet cfg = true → (t = "objects" ∨ t = "lists") →
        is2xx s = false →
        (get_attribute cfg t i a (.reply s bd)).result
          = .obj [("error", .str ("API request failed: " ++ toString s)),
              ("details", .str (Body.text bd))])
  ∧ (∀ cfg t i a d s bd, Config.keySet cfg = true → (t = "objects" ∨ t = "lists") →
        is2xx s = false →
        (update_attribute cfg t i a d (.reply s bd)).result
          = .obj [("error", .str ("API request failed: " ++ toString s)),
              ("details", .str (Body.text bd))])
  ∧ (∀ cfg t i a l o s bd, Config.keySet cfg = true → (t = "objects" ∨ t = "lists") →
        is2xx s = false →
        (list_select_options cfg t i a l o (.reply s bd)).result
          = .obj [("error", .str ("API request failed: " ++ toString s)),
              ("details", .str (Body.text bd))])
  ∧ (∀ cfg t i a d s bd, Config.keySet cfg = true → (t = "objects" ∨ t = "lists") →
        is2xx s = false →
        (create_select_option cfg t i a d (.reply s bd)).result
          = .obj [("error", .str ("API request failed: " ++ toString s)),
              ("details", .str (Body.text bd))])
  ∧ (∀ cfg t i a oi d s bd, Config.keySet cfg = true → (t = "objects" ∨ t = "lists") →
        is2xx s = false →
        (update_select_option cfg t i a oi d (.reply s bd)).result
          = .obj [("error", .str ("API request failed: " ++ toString s)),
              ("details", .str (Body.text bd))])
  ∧ (∀ cfg t i a l o s bd, Config.keySet cfg = true → (t = "objects" ∨ t = "lists") →
        is2xx s = false →
        (list_statuses cfg t i a l o (.reply s bd)).result
          = .obj [("error", .str ("API request failed: " ++ toString s)),
              ("details", .str (Body.text bd))])
  ∧ (∀ cfg t i a d s bd, Config.keySet cfg = true → (t = "objects" ∨ t = "lists") →
        is2xx s = false →
        (create_status cfg t i a d (.reply s bd)).result
          = .obj [("error", .str ("API request failed: " ++ toString s)),
              ("details", .str (Body.text bd))])
  ∧ (∀ cfg t i a si d s bd, Config.keySet cfg = true → (t = "objects" ∨ t = "lists") →
        is2xx s = false →
        (update_status cfg t i a si d (.reply s bd)).result
          = .obj [("error", .str ("API request failed: " ++ toString s)),
              ("details", .str (Body.text bd))])
  ∧ (∀ cfg s bd, Config.keySet cfg = true → is2xx s = false →
        (list_notes cfg (.reply s bd)).result
          = .obj [("error", .str ("API request failed: " ++ toString s)),
              ("details", .str (Body.text bd))])
  ∧ (∀ cfg d s bd, Config.keySet cfg = true → is2xx s = false →
        (create_note cfg d (.reply s bd)).result
          = .obj [("error", .str ("API request failed: " ++ toString s)),
              ("details", .str (Body.text bd))])
  ∧ (∀ cfg a s bd, Config.keySet cfg = true → is2xx s = false →
        (get_note cfg a (.reply s bd)).result
          = .obj [("error", .str ("API request failed: " ++ toString s)),
              ("details", .str (Body.text bd))])
  ∧ (∀ cfg a s bd, Config.keySet cfg = true → is2xx s = false →
        (delete_note cfg a (.reply s bd)).result
          = .obj [("error", .str ("API request failed: " ++ toString s)),
              ("details", .str (Body.text bd))])
  ∧ (∀ cfg l o s bd, Config.keySet cfg = true → is2xx s = false →
        (list_objects cfg l o (.reply s bd)).result
          = .obj [("error", .str ("API request failed: " ++ toString s)),
              ("details", .str (Body.text bd))])
  ∧ (∀ cfg d s bd, Config.keySet cfg = true → is2xx s = false →
        (create_object cfg d (.reply s bd)).result
          = .obj [("error", .str ("API request failed: " ++ toString s)),
              ("details", .str (Body.text bd))])
  ∧ (∀ cfg a s bd, Config.keySet cfg = true → is2xx s = false →
        (get_object cfg a (.reply s bd)).result
          = .obj [("error", .str ("API request failed: " ++ toString s)),
              ("details", .str (Body.text bd))])
  ∧ (∀ cfg a d s bd, Config.keySet cfg = true → is2xx s = false →
        (update_object cfg a d (.reply s bd)).result
          = .obj [("error", .str ("API request failed: " ++ toString s)),
              ("details", .str (Body.text bd))])
  ∧ (∀ cfg s bd, Config.keySet cfg = true → is2xx s = false →
        (list_tasks cfg (.reply s bd)).result
          = .obj [("error", .str ("API request failed: " ++ toString s)),
              ("details", .str (Body.text bd))])
  ∧ (∀ cfg d s bd, Config.keySet cfg = true → is2xx s = false →
        (create_task cfg d (.reply s bd)).result
          = .obj [("error", .str ("API request failed: " ++ toString s)),
              ("details", .str (Body.text bd))])
  ∧ (∀ cfg a s bd, Config.keySet cfg = true → is2xx s = false →
        (get_task cfg a (.reply s bd)).result
          = .obj [("error", .str ("API request failed: " ++ toString s)),
              ("details", .str (Body.text bd))])
  ∧ (∀ cfg a d s bd, Config.keySet cfg = true → is2xx s = false →
        (update_task cfg a d (.reply s bd)).result
          = .obj [("error", .str ("API request failed: " ++ toString s)),
              ("details", .str (Body.text bd))])
  ∧ (∀ cfg a s bd, Config.keySet cfg = true → is2xx s = false →
        (delete_task cfg a (.reply s bd)).result
          = .obj [("error", .str ("API request failed: " ++ toString s)),
              ("details", .str (Body.text bd))])
  ∧ (∀ cfg s bd, Config.keySet cfg = true → is2xx s = false →
        (list_workspace_members cfg (.reply s bd)).result
          = .obj [("error", .str ("API request failed: " ++ toString s)),
              ("details", .str (Body.text bd))])
  ∧ (∀ cfg a s bd, Config.keySet cfg = true → is2xx s = false →
        (get_workspace_member cfg a (.reply s bd)).result
          = .obj [("error", .str ("API request failed: " ++ toString s)),
              ("details", .str (Body.text bd))]) :=
  ⟨fun cfg a b s bd hk h => by
     simp only [create_list_entry, requireKey_of _ _ hk]
     exact runA_non2xx _ _ _ h,
   fun cfg a b s bd hk h => by
     simp only [get_list_entry, requireKey_of _ _ hk]
     exact runA_non2xx _ _ _ h,
   fun cfg a f so l o s bd hk h => by
     simp only [list_entries, requireKey_of _ _ hk]
     exact runA_non2xx _ _ _ h,
   fun cfg a b d s bd hk h => by
     simp only [update_list_entry_overwrite, requireKey_of _ _ hk]
     exact runA_non2xx _ _ _ h,
   fun cfg a b d s bd hk h => by
     simp only [update_list_entry_append, requireKey_of _ _ hk]
     exact runA_non2xx _ _ _ h,
   fun cfg a b s bd hk h => by
     simp only [delete_list_entry, requireKey_of _ _ hk]
     exact runA_non2xx _ _ _ h,
   fun cfg a b c s bd hk h => by
     simp only [get_list_entry_attribute_values, requireKey_of _ _ hk]
     exact runA_non2xx _ _ _ h,
   fun cfg a b s bd hk h => by
     simp only [get_record, requireKey_of _ _ hk]
     exact runA_non2xx _ _ _ h,
   fun cfg a b d s bd hk h => by
     simp only [update_record_overwrite, requireKey_of _ _ hk]
     exact runA_non2xx _ _ _ h,
   fun cfg a b d s bd hk h => by
     simp only [update_record_append, requireKey_of _ _ hk]
     exact runA_non2xx _ _ _ h,
   fun cfg a b s bd hk h => by
     simp only [delete_record, requireKey_of _ _ hk]
     simp [attempt, h, beq_204_eq_false h],
   fun cfg a b l o s bd hk h => by
     simp only [list_record_entries, requireKey_of _ _ hk]
     exact runA_non2xx _ _ _ h,
   fun cfg a f so l o s bd hk h => by
     simp only [list_records, requireKey_of _ _ hk]
     exact runA_non2xx _ _ _ h,
   fun cfg a d s bd hk h => by
     simp only [create_record, requireKey_of _ _ hk]
     exact runA_non2xx _ _ _ h,
   fun cfg l o s bd hk h => by
     simp only [list_lists, requireKey_of _ _ hk]
     exact runA_non2xx _ _ _ h,
   fun cfg d s bd hk h => by
     simp only [create_list, requireKey_of _ _ hk]
     exact runA_non2xx _ _ _ h,
   fun cfg a s bd hk h => by
     simp only [get_list, requireKey_of _ _ hk]
     exact runA_non2xx _ _ _ h,
   fun cfg a d s bd hk h => by
     simp only [update_list, requireKey_of _ _ hk]
     exact runA_non2xx _ _ _ h,
   fun cfg t i l o s bd hk hv h => by
     simp only [list_attributes, requireKey_of _ _ hk, requireTargetType_of _ _ hv]
     exact runB_non2xx _ _ h,
   fun cfg t i d s bd hk hv h => by
     simp only [create_attribute, requireKey_of _ _ hk, requireTargetType_of _ _ hv]
     exact runB_non2xx _ _ h,
   fun cfg t i a s bd hk hv h => by
     simp only [get_attribute, requireKey_of _ _ hk, requireTargetType_of _ _ hv]
     exact runB_non2xx _ _ h,
   fun cfg t i a d s bd hk hv h => by
     simp only [update_attribute, requireKey_of _ _ hk, requireTargetType_of _ _ hv]
     exact runB_non2xx _ _ h,
   fun cfg t i a l o s bd hk hv h => by
     simp only [list_select_options, requireKey_of _ _ hk, requireTargetType_of _ _ hv]
     exact runB_non2xx _ _ h,
   fun cfg t i a d s bd hk hv h => by
     simp only [create_select_option, requireKey_of _ _ hk, requireTargetType_of _ _ hv]
     exact runB_non2xx _ _ h,
   fun cfg t i a oi d s bd hk hv h => by
     simp only [update_select_option, requireKey_of _ _ hk, requireTargetType_of _ _ hv]
     exact runB_non2xx _ _ h,
   fun cfg t i a l o s bd hk hv h => by
     simp only [list_statuses, requireKey_of _ _ hk, requireTargetType_of _ _ hv]
     exact runB_non2xx _ _ h,
   fun cfg t i a d s bd hk hv h => by
     simp only [create_status, requireKey_of _ _ hk, requireTargetType_of _ _ hv]
     exact runB_non2xx _ _ h,
   fun cfg t i a si d s bd hk hv h => by
     simp only [update_status, requireKey_of _ _ hk, requireTargetType_of _ _ hv]
     exact runB_non2xx _ _ h,
   fun cfg s bd hk h => by
     simp only [list_notes, requireKey_of _ _ hk]
     exact runB_non2xx _ _ h,
   fun cfg d s bd hk h => by
     simp only [create_note, requireKey_of _ _ hk]
     exact runB_non2xx _ _ h,
   fun cfg a s bd hk h => by
     simp only [get_note, requireKey_of _ _ hk]
     exact runB_non2xx _ _ h,
   fun cfg a s bd hk h => by
     simp only [delete_note, requireKey_of _ _ hk]
     exact runB_non2xx _ _ h,
   fun cfg l o s bd hk h => by
     simp only [list_objects, requireKey_of _ _ hk]
     exact runB_non2xx _ _ h,
   fun cfg d s bd hk h => by
     simp only [create_object, requireKey_of _ _ hk]
     exact runB_non2xx _ _ h,
   fun cfg a s bd hk h => by
     simp only [get_object, requireKey_of _ _ hk]
     exact runB_non2xx _ _ h,
   fun cfg a d s bd hk h => by
     simp only [update_object, requireKey_of _ _ hk]
     exact runB_non2xx _ _ h,
   fun cfg s bd hk h => by
     simp only [list_tasks, requireKey_of _ _ hk]
     exact runB_non2xx _ _ h,
   fun cfg d s bd hk h => by
     simp only [create_task, requireKey_of _ _ hk]
     exact runB_non2xx _ _ h,
   fun cfg a s bd hk h => by
     simp only [get_task, requireKey_of _ _ hk]
     exact runB_non2xx _ _ h,
   fun cfg a d s bd hk h => by
     simp only [update_task, requireKey_of _ _ hk]
     exact runB_non2xx _ _ h,
   fun cfg a s bd hk h => by
     simp only [delete_task, requireKey_of _ _ hk]
     exact runB_non2xx _ _ h,
   fun cfg s bd hk h => by
     simp only [list_workspace_members, requireKey_of _ _ hk]
     exact runB_non2xx _ _ h,
   fun cfg a s bd hk h => by
     simp only [get_workspace_member, requireKey_of _ _ hk]
     exact runB_non2xx _ _ h⟩

/-- Witness for C2 at concrete inputs: a 404 with a JSON body against
`create_list_entry`. -/
theorem c2_non2xx_error_results_witness :
    (create_list_entry cfg0 "l" (.obj []) (.reply 404 (.decodable "\x7b\"c\":1\x7d" (.obj [("c", .num 1)])))).result
      = .obj [("error", .str ("API request failed with status " ++ toString 404)),
              ("details", Body.decodeOrText (.decodable "\x7b\"c\":1\x7d" (.obj [("c", .num 1)])))] :=
  c2_non2xx_error_results.1 cfg0 "l" (.obj []) 404 (.decodable "\x7b\"c\":1\x7d" (.obj [("c", .num 1)])) rfl rfl

/-- C6: with a credential configured (and a valid `target_type` where one
is taken), every `create_*` and `update_*` tool sends the payload wrapped as
`{"data": p}`, and against an upstream that echoes the received JSON body
back as its 200 response it returns exactly that `{"data": p}` envelope.
One conjunct per create/update tool. -/
theorem c6_create_update_roundtrip :
    (∀ cfg a p tx, Config.keySet cfg = true →
        ((create_list_entry cfg a p (.reply 200 (.decodable tx (.obj [("data", p)])))).requests.map Request.body = [some (.obj [("data", p)])])
        ∧ (create_list_entry cfg a p (.reply 200 (.decodable tx (.obj [("data", p)])))).result = .obj [("data", p)])
  ∧ (∀ cfg a b p tx, Config.keySet cfg = true →
        ((update_list_entry_overwrite cfg a b p (.reply 200 (.decodable tx (.obj [("data", p)])))).requests.map Request.body = [some (.obj [("data", p)])])
        ∧ (update_list_entry_overwrite cfg a b p (.reply 200 (.decodable tx (.obj [("data", p)])))).result = .obj [("data", p)])
  ∧ (∀ cfg a b p tx, Config.keySet cfg = true →
        ((update_list_entry_append cfg a b p (.reply 200 (.decodable tx (.obj [("data", p)])))).requests.map Request.body = [some (.obj [("data", p)])])
        ∧ (update_list_entry_append cfg a b p (.reply 200 (.decodable tx (.obj [("data", p)])))).result = .obj [("data", p)])
  ∧ (∀ cfg a b p tx, Config.keySet cfg = true →
        ((update_record_overwrite cfg a b p (.reply 200 (.decodable tx (.obj [("data", p)])))).requests.map Request.body = [some (.obj [("data", p)])])
        ∧ (update_record_overwrite cfg a b p (.reply 200 (.decodable tx (.obj [("data", p)])))).result = .obj [("data", p)])
  ∧ (∀ cfg a b p tx, Config.keySet cfg = true →
        ((update_record_append cfg a b p (.reply 200 (.decodable tx (.obj [("data", p)])))).requests.map Request.body = [some (.obj [("data", p)])])
        ∧ (update_record_append cfg a b p (.reply 200 (.decodable tx (.obj [("data", p)])))).result = .obj [("data", p)])
  ∧ (∀ cfg a p tx, Config.keySet cfg = true →
        ((create_record cfg a p (.reply 200 (.decodable tx (.obj [("data", p)])))).requests.map Request.body = [some (.obj [("data", p)])])
        ∧ (create_record cfg a p (.reply 200 (.decodable tx (.obj [("data", p)])))).result = .obj [("data", p)])
  ∧ (∀ cfg p tx, Config.keySet cfg = true →
        ((create_list cfg p (.reply 200 (.decodable tx (.obj [("data", p)])))).requests.map Request.body = [some (.obj [("data", p)])])
        ∧ (create_list cfg p (.reply 200 (.decodable tx (.obj [("data", p)])))).result = .obj [("data", p)])
  ∧ (∀ cfg a p tx, Config.keySet cfg = true →
        ((update_list cfg a p (.reply 200 (.decodable tx (.obj [("data", p)])))).requests.map Request.body = [some (.obj [("data", p)])])
        ∧ (update_list cfg a p (.reply 200 (.decodable tx (.obj [("data", p)])))).result = .obj [("data", p)])
  ∧ (∀ cfg t i p tx, Config.keySet cfg = true → (t = "objects" ∨ t = "lists") →
        ((create_attribute cfg t i p (.reply 200 (.decodable tx (.obj [("data", p)])))).requests.map Request.body = [some (.obj [("data", p)])])
        ∧ (create_attribute cfg t i p (.reply 200 (.decodable tx (.obj [("data", p)])))).result = .obj [("data", p)])
  ∧ (∀ cfg t i a p tx, Config.keySet cfg = true → (t = "objects" ∨ t = "lists") →
        ((update_attribute cfg t i a p (.reply 200 (.decodable tx (.obj [("data", p)])))).requests.map Request.body = [some (.obj [("data", p)])])
        ∧ (update_attribute cfg t i a p (.reply 200 (.decodable tx (.obj [("data", p)])))).result = .obj [("data", p)])
  ∧ (∀ cfg t i a p tx, Config.keySet cfg = true → (t = "objects" ∨ t = "lists") →
        ((create_select_option cfg t i a p (.reply 200 (.decodable tx (.obj [("data", p)])))).requests.map Request.body = [some (.obj [("data", p)])])
        ∧ (create_select_option cfg t i a p (.reply 200 (.decodable tx (.obj [("data", p)])))).result = .obj [("data", p)])
  ∧ (∀ cfg t i a oi p tx, Config.keySet cfg = true → (t = "objects" ∨ t = "lists") →
        ((update_select_option cfg t i a oi p (.reply 200 (.decodable tx (.obj [("data", p)])))).requests.map Request.body = [some (.obj [("data", p)])])
        ∧ (update_select_option cfg t i a oi p (.reply 200 (.decodable tx (.obj [("data", p)])))).result = .obj [("data", p)])
  ∧ (∀ cfg t i a p tx, Config.keySet cfg = true → (t = "objects" ∨ t = "lists") →
        ((create_status cfg t i a p (.reply 200 (.decodable tx (.obj [("data", p)])))).requests.map Request.body = [some (.obj [("data", p)])])
        ∧ (create_status cfg t i a p (.reply 200 (.decodable tx (.obj [("data", p)])))).result = .obj [("data", p)])
  ∧ (∀ cfg t i a si p tx, Config.keySet cfg = true → (t = "objects" ∨ t = "lists") →
        ((update_status cfg t i a si p (.reply 200 (.decodable tx (.obj [("data", p)])))).requests.map Request.body = [some (.obj [("data", p)])])
        ∧ (update_status cfg t i a si p (.reply 200 (.decodable tx (.obj [("data", p)])))).result = .obj [("data", p)])
  ∧ (∀ cfg p tx, Config.keySet cfg = true →
        ((create_note cfg p (.reply 200 (.decodable tx (.obj [("data", p)])))).requests.map Request.body = [some (.obj [("data", p)])])
        ∧ (create_note cfg p (.reply 200 (.decodable tx (.obj [("data", p)])))).result = .obj [("data", p)])
  ∧ (∀ cfg p tx, Config.keySet cfg = true →
        ((create_task cfg p (.reply 200 (.decodable tx (.obj [("data", p)])))).requests.map Request.body = [some (.obj [("data", p)])])
        ∧ (create_task cfg p (.reply 200 (.decodable tx (.obj [("data", p)])))).result = .obj [("data", p)])
  ∧ (∀ cfg a p tx, Config.keySet cfg = true →
        ((update_task cfg a p (.reply 200 (.decodable tx (.obj [("data", p)])))).requests.map Request.body = [some (.obj [("data", p)])])
        ∧ (update_task cfg a p (.reply 200 (.decodable tx (.obj [("data", p)])))).result = .obj [("data", p)])
  ∧ (∀ cfg p tx, Config.keySet cfg = true →
        ((create_object cfg p (.reply 200 (.decodable tx (.obj [("data", p)])))).requests.map Request.body = [some (.obj [("data", p)])])
        ∧ (create_object cfg p (.reply 200 (.decodable tx (.obj [("data", p)])))).result = .obj [("data", p)])
  ∧ (∀ cfg a p tx, Config.keySet cfg = true →
        ((update_object cfg a p (.reply 200 (.decodable tx (.obj [("data", p)])))).requests.map Request.body = [some (.obj [("data", p)])])
        ∧ (update_object cfg a p (.reply 200 (.decodable tx (.obj [("data", p)])))).result = .obj [("data", p)]) :=
  ⟨fun cfg a p tx hk => by
     simp only [create_list_entry, requireKey_of _ _ hk]
     exact ⟨rfl, rfl⟩,
   fun cfg a b p tx hk => by
     simp only [update_list_entry_overwrite, requireKey_of _ _ hk]
     exact ⟨rfl, rfl⟩,
   fun cfg a b p tx hk => by
     simp only [update_list_entry_append, requireKey_of _ _ hk]
     exact ⟨rfl, rfl⟩,
   fun cfg a b p tx hk => by
     simp only [update_record_overwrite, requireKey_of _ _ hk]
     exact ⟨rfl, rfl⟩,
   fun cfg a b p tx hk => by
     simp only [update_record_append, requireKey_of _ _ hk]
     exact ⟨rfl, rfl⟩,
   fun cfg a p tx hk => by
     simp only [create_record, requireKey_of _ _ hk]
     exact ⟨rfl, rfl⟩,
   fun cfg p tx hk => by
     simp only [create_list, requireKey_of _ _ hk]
     exact ⟨rfl, rfl⟩,
   fun cfg a p tx hk => by
     simp only [update_list, requireKey_of _ _ hk]
     exact ⟨rfl, rfl⟩,
   fun cfg t i p tx hk hv => by
     simp only [create_attribute, requireKey_of _ _ hk, requireTargetType_of _ _ hv]
     exact ⟨rfl, rfl⟩,
   fun cfg t i a p tx hk hv => by
     simp only [update_attribute, requireKey_of _ _ hk, requireTargetType_of _ _ hv]
     exact ⟨rfl, rfl⟩,
   fun cfg t i a p tx hk hv => by
     simp only [create_select_option, requireKey_of _ _ hk, requireTargetType_of _ _ hv]
     exact ⟨rfl, rfl⟩,
   fun cfg t i a oi p tx hk hv => by
     simp only [update_select_option, requireKey_of _ _ hk, requireTargetType_of _ _ hv]
     exact ⟨rfl, rfl⟩,
   fun cfg t i a p tx hk hv => by
     simp only [create_status, requireKey_of _ _ hk, requireTargetType_of _ _ hv]
     exact ⟨rfl, rfl⟩,
   fun cfg t i a si p tx hk hv => by
     simp only [update_status, requireKey_of _ _ hk, requireTargetType_of _ _ hv]
     exact ⟨rfl, rfl⟩,
   fun cfg p tx hk => by
     simp only [create_note, requireKey_of _ _ hk]
     exact ⟨rfl, rfl⟩,
   fun cfg p tx hk => by
     simp only [create_task, requireKey_of _ _ hk]
     exact ⟨rfl, rfl⟩,
   fun cfg a p tx hk => by
     simp only [update_task, requireKey_of _ _ hk]
     exact ⟨rfl, rfl⟩,
   fun cfg p tx hk => by
     simp only [create_object, requireKey_of _ _ hk]
     exact ⟨rfl, rfl⟩,
   fun cfg a p tx hk => by
     simp only [update_object, requireKey_of _ _ hk]
     exact ⟨rfl, rfl⟩⟩

/-- Witness for C6 at concrete inputs: `create_record` against an echoing
upstream. -/
theorem c6_create_update_roundtrip_witness :
    ((create_record cfg0 "people" (.obj [("values", .obj [])])
        (.reply 200 (.decodable "txt" (.obj [("data", .obj [("values", .obj [])])])))).requests.map Request.body
      = [some (.obj [("data", .obj [("values", .obj [])])])])
  ∧ (create_record cfg0 "people" (.obj [("values", .obj [])])
        (.reply 200 (.decodable "txt" (.obj [("data", .obj [("values", .obj [])])])))).result
      = .obj [("data", .obj [("values", .obj [])])] :=
  c6_create_update_roundtrip.2.2.2.2.2.1 cfg0 "people" (.obj [("values", .obj [])]) "txt" rfl

/-- C10: with a credential configured, `list_records` and `list_entries`
build the same query dictionary `q` (holding `limit`/`offset` and, only when
truthy, `filter`/`sorts`), but `list_records` POSTs it wrapped as
`{"data": q}` while `list_entries` POSTs `q` itself at top level; a falsy
`filter_criteria`/`sorts` (`None`, `{}`, `[]` — all falsy in Python) leaves
the corresponding key out of `q` entirely. -/
theorem c10_query_payload_shapes :
    (∀ cfg oid lid fc so lim off up up', Config.keySet cfg = true →
      ∃ q : List (String × Json),
        ((list_records cfg oid fc so lim off up).requests.map Request.body
            = [some (.obj [("data", .obj q)])])
        ∧ ((list_entries cfg lid fc so lim off up').requests.map Request.body
            = [some (.obj q)])
        ∧ (q.map Prod.fst
            = ["limit", "offset"]
              ++ (if pyTruthy fc then ["filter"] else [])
              ++ (if pyTruthy so then ["sorts"] else []))
        ∧ (pyTruthy fc = false → "filter" ∉ q.map Prod.fst)
        ∧ (pyTruthy so = false → "sorts" ∉ q.map Prod.fst))
  ∧ pyTruthy none = false
  ∧ pyTruthy (some (.obj [])) = false
  ∧ pyTruthy (some (.arr [])) = false := by
  refine ⟨?_, rfl, rfl, rfl⟩
  intro cfg oid lid fc so lim off up up' hk
  refine ⟨[("limit", .num lim), ("offset", .num off)]
      ++ (if pyTruthy fc then [("filter", fc.getD .null)] else [])
      ++ (if pyTruthy so then [("sorts", so.getD .null)] else []), ?_, ?_, ?_, ?_, ?_⟩
  · simp only [list_records, requireKey_of _ _ hk]
    rfl
  · simp only [list_entries, requireKey_of _ _ hk]
    rfl
  · cases hf : pyTruthy fc <;> cases hs : pyTruthy so <;> simp
  · intro hf
    cases hs : pyTruthy so <;> simp [hf, hs]
  · intro hs
    cases hf : pyTruthy fc <;> simp [hf, hs]

/-- Witness for C10 at concrete inputs: no filter (`None`) and an empty
sorts list, both falsy, so neither key appears in either payload. -/
theorem c10_query_payload_shapes_witness :
    ∃ q : List (String × Json),
      ((list_records cfg0 "people" none (some (.arr [])) 10 0 (.transportErr "x")).requests.map Request.body
          = [some (.obj [("data", .obj q)])])
      ∧ ((list_entries cfg0 "abc" none (some (.arr [])) 10 0 (.transportErr "x")).requests.map Request.body
          = [some (.obj q)]) := by
  obtain ⟨q, h1, h2, -, -, -⟩ :=
    c10_query_payload_shapes.1 cfg0 "people" "abc" none (some (.arr [])) 10 0
      (.transportErr "x") (.transportErr "x") rfl
  exact ⟨q, h1, h2⟩

theorem requireKey_requests_det (cfg : Config) (r : Request) (j j' : Json) :
    (requireKey cfg ⟨[r], j⟩).requests = (requireKey cfg ⟨[r], j'⟩).requests := by
  cases h : cfg.keySet <;> simp [requireKey, h]

theorem requireKeyTT_requests_det (cfg : Config) (t : String) (r : Request) (j j' : Json) :
    (requireKey cfg (requireTargetType t ⟨[r], j⟩)).requests
      = (requireKey cfg (requireTargetType t ⟨[r], j'⟩)).requests := by
  cases h : cfg.keySet <;> by_cases ht : (t = "objects" ∨ t = "lists") <;>
    simp [requireKey, requireTargetType, h, ht]

theorem requireKey_headers (cfg : Config) (r : Request) (j : Json)
    (hr : r.headers = ("Authorization", "Bearer " ++ cfg.key)
        :: (if r.body.isSome then [("Content-Type", "application/json")] else [])) :
    ∀ x ∈ (requireKey cfg ⟨[r], j⟩).requests,
      x.headers = ("Authorization", "Bearer " ++ cfg.key)
        :: (if x.body.isSome then [("Content-Type", "application/json")] else []) := by
  cases h : cfg.keySet
  · simp [requireKey, h]
  · simpa [requireKey, h] using hr

theorem requireKeyTT_headers (cfg : Config) (t : String) (r : Request) (j : Json)
    (hr : r.headers = ("Authorization", "Bearer " ++ cfg.key)
        :: (if r.body.isSome then [("Content-Type", "application/json")] else [])) :
    ∀ x ∈ (requireKey cfg (requireTargetType t ⟨[r], j⟩)).requests,
      x.headers = ("Authorization", "Bearer " ++ cfg.key)
        :: (if x.body.isSome then [("Content-Type", "application/json")] else []) := by
  cases h : cfg.keySet <;> by_cases ht : (t = "objects" ∨ t = "lists")
  · simp [requireKey, h]
  · simp [requireKey, h]
  · simpa [requireKey, requireTargetType, h, ht] using hr
  · simp [requireKey, requireTargetType, h, ht]

/-- C9: every tool's outbound request is fully determined by its arguments
and the configuration — the upstream behavior never influences it — and its
headers are exactly `Authorization: Bearer <credential>` plus
`Content-Type: application/json` if and only if a JSON body is sent.  One
conjunct per tool. -/
theorem c9_request_determinism_and_headers :
    (∀ cfg a b up up',
        ((create_list_entry cfg a b up).requests = (create_list_entry cfg a b up').requests)
        ∧ (∀ x ∈ (create_list_entry cfg a b up).requests,
            x.headers = ("Authorization", "Bearer " ++ Config.key cfg)
              :: (if x.body.isSome then [("Content-Type", "application/json")] else [])))
  ∧ (∀ cfg a b up up',
        ((get_list_entry cfg a b up).requests = (get_list_entry cfg a b up').requests)
        ∧ (∀ x ∈ (get_list_entry cfg a b up).requests,
            x.headers = ("Authorization", "Bearer " ++ Config.key cfg)
              :: (if x.body.isSome then [("Content-Type", "application/json")] else [])))
  ∧ (∀ cfg a f so l o up up',
        ((list_entries cfg a f so l o up).requests = (list_entries cfg a f so l o up').requests)
        ∧ (∀ x ∈ (list_entries cfg a f so l o up).requests,
            x.headers = ("Authorization", "Bearer " ++ Config.key cfg)
              :: (if x.body.isSome then [("Content-Type", "application/json")] else [])))
  ∧ (∀ cfg a b d up up',
        ((update_list_entry_overwrite cfg a b d up).requests = (update_list_entry_overwrite cfg a b d up').requests)
        ∧ (∀ x ∈ (update_list_entry_overwrite cfg a b d up).requests,
            x.headers = ("Authorization", "Bearer " ++ Config.key cfg)
              :: (if x.body.isSome then [("Content-Type", "application/json")] else [])))
  ∧ (∀ cfg a b d up up',
        ((update_list_entry_append cfg a b d up).requests = (update_list_entry_append cfg a b d up').requests)
        ∧ (∀ x ∈ (update_list_entry_append cfg a b d up).requests,
            x.headers = ("Authorization", "Bearer " ++ Config.key cfg)
              :: (if x.body.isSome then [("Content-Type", "application/json")] else [])))
  ∧ (∀ cfg a b up up',
        ((delete_list_entry cfg a b up).requests = (delete_list_entry cfg a b up').requests)
        ∧ (∀ x ∈ (delete_list_entry cfg a b up).requests,
            x.headers = ("Authorization", "Bearer " ++ Config.key cfg)
              :: (if x.body.isSome then [("Content-Type", "application/json")] else [])))
  ∧ (∀ cfg a b c up up',
        ((get_list_entry_attribute_values cfg a b c up).requests = (get_list_entry_attribute_values cfg a b c up').requests)
        ∧ (∀ x ∈ (get_list_entry_attribute_values cfg a b c up).requests,
            x.headers = ("Authorization", "Bearer " ++ Config.key cfg)
              :: (if x.body.isSome then [("Content-Type", "application/json")] else [])))
  ∧ (∀ cfg a b up up',
        ((get_record cfg a b up).requests = (get_record cfg a b up').requests)
        ∧ (∀ x ∈ (get_record cfg a b up).requests,
            x.headers = ("Authorization", "Bearer " ++ Config.key cfg)
              :: (if x.body.isSome then [("Content-Type", "application/json")] else [])))
  ∧ (∀ cfg a b d up up',
        ((update_record_overwrite cfg a b d up).requests = (update_record_overwrite cfg a b d up').requests)
        ∧ (∀ x ∈ (update_record_overwrite cfg a b d up).requests,
            x.headers = ("Authorization", "Bearer " ++ Config.key cfg)
              :: (if x.body.isSome then [("Content-Type", "application/json")] else [])))
  ∧ (∀ cfg a b d up up',
        ((update_record_append cfg a b d up).requests = (update_record_append cfg a b d up').requests)
        ∧ (∀ x ∈ (update_record_append cfg a b d up).requests,
            x.headers = ("Authorization", "Bearer " ++ Config.key cfg)
              :: (if x.body.isSome then [("Content-Type", "application/json")] else [])))
  ∧ (∀ cfg a b up up',
        ((delete_record cfg a b up).requests = (delete_record cfg a b up').requests)
        ∧ (∀ x ∈ (delete_record cfg a b up).requests,
            x.headers = ("Authorization", "Bearer " ++ Config.key cfg)
              :: (if x.body.isSome then [("Content-Type", "application/json")] else [])))
  ∧ (∀ cfg a b l o up up',
        ((list_record_entries cfg a b l o up).requests = (list_record_entries cfg a b l o up').requests)
        ∧ (∀ x ∈ (list_record_entries cfg a b l o up).requests,
            x.headers = ("Authorization", "Bearer " ++ Config.key cfg)
              :: (if x.body.isSome then [("Content-Type", "application/json")] else [])))
  ∧ (∀ cfg a f so l o up up',
        ((list_records cfg a f so l o up).requests = (list_records cfg a f so l o up').requests)
        ∧ (∀ x ∈ (list_records cfg a f so l o up).requests,
            x.headers = ("Authorization", "Bearer " ++ Config.key cfg)
              :: (if x.body.isSome then [("Content-Type", "application/json")] else [])))
  ∧ (∀ cfg a d up up',
        ((create_record cfg a d up).requests = (create_record cfg a d up').requests)
        ∧ (∀ x ∈ (create_record cfg a d up).requests,
            x.headers = ("Authorization", "Bearer " ++ Config.key cfg)
              :: (if x.body.isSome then [("Content-Type", "application/json")] else [])))
  ∧ (∀ cfg l o up up',
        ((list_lists cfg l o up).requests = (list_lists cfg l o up').requests)
        ∧ (∀ x ∈ (list_lists cfg l o up).requests,
            x.headers = ("Authorization", "Bearer " ++ Config.key cfg)
              :: (if x.body.isSome then [("Content-Type", "application/json")] else [])))
  ∧ (∀ cfg d up up',
        ((create_list cfg d up).requests = (create_list cfg d up').requests)
        ∧ (∀ x ∈ (create_list cfg d up).requests,
            x.headers = ("Authorization", "Bearer " ++ Config.key cfg)
              :: (if x.body.isSome then [("Content-Type", "application/json")] else [])))
  ∧ (∀ cfg a up up',
        ((get_list cfg a up).requests = (get_list cfg a up').requests)
        ∧ (∀ x ∈ (get_list cfg a up).requests,
            x.headers = ("Authorization", "Bearer " ++ Config.key cfg)
              :: (if x.body.isSome then [("Content-Type", "application/json")] else [])))
  ∧ (∀ cfg a d up up',
        ((update_list cfg a d up).requests = (update_list cfg a d up').requests)
        ∧ (∀ x ∈ (update_list cfg a d up).requests,
            x.headers = ("Authorization", "Bearer " ++ Config.key cfg)
              :: (if x.body.isSome then [("Content-Type", "application/json")] else [])))
  ∧ (∀ cfg t i l o up up',
        ((list_attributes cfg t i l o up).requests = (list_attributes cfg t i l o up').requests)
        ∧ (∀ x ∈ (list_attributes cfg t i l o up).requests,
            x.headers = ("Authorization", "Bearer " ++ Config.key cfg)
              :: (if x.body.isSome then [("Content-Type", "application/json")] else [])))
  ∧ (∀ cfg t i d up up',
        ((create_attribute cfg t i d up).requests = (create_attribute cfg t i d up').requests)
        ∧ (∀ x ∈ (create_attribute cfg t i d up).requests,
            x.headers = ("Authorization", "Bearer " ++ Config.key cfg)
              :: (if x.body.isSome then [("Content-Type", "application/json")] else [])))
  ∧ (∀ cfg t i a up up',
        ((get_attribute cfg t i a up).requests = (get_attribute cfg t i a up').requests)
        ∧ (∀ x ∈ (get_attribute cfg t i a up).requests,
            x.headers = ("Authorization", "Bearer " ++ Config.key cfg)
              :: (if x.body.isSome then [("Content-Type", "application/json")] else [])))
  ∧ (∀ cfg t i a d up up',
        ((update_attribute cfg t i a d up).requests = (update_attribute cfg t i a d up').requests)
        ∧ (∀ x ∈ (update_attribute cfg t i a d up).requests,
            x.headers = ("Authorization", "Bearer " ++ Config.key cfg)
              :: (if x.body.isSome then [("Content-Type", "application/json")] else [])))
  ∧ (∀ cfg t i a l o up up',
        ((list_select_options cfg t i a l o up).requests = (list_select_options cfg t i a l o up').requests)
        ∧ (∀ x ∈ (list_select_options cfg t i a l o up).requests,
            x.headers = ("Authorization", "Bearer " ++ Config.key cfg)
              :: (if x.body.isSome then [("Content-Type", "application/json")] else [])))
  ∧ (∀ cfg t i a d up up',
        ((create_select_option cfg t i a d up).requests = (create_select_option cfg t i a d up').requests)
        ∧ (∀ x ∈ (create_select_option cfg t i a d up).requests,
            x.headers = ("Authorization", "Bearer " ++ Config.key cfg)
              :: (if x.body.isSome then [("Content-Type", "application/json")] else [])))
  ∧ (∀ cfg t i a oi d up up',
        ((update_select_option cfg t i a oi d up).requests = (update_select_option cfg t i a oi d up').requests)
        ∧ (∀ x ∈ (update_select_option cfg t i a oi d up).requests,
            x.headers = ("Authorization", "Bearer " ++ Config.key cfg)
              :: (if x.body.isSome then [("Content-Type", "application/json")] else [])))
  ∧ (∀ cfg t i a l o up up',
        ((list_statuses cfg t i a l o up).requests = (list_statuses cfg t i a l o up').requests)
        ∧ (∀ x ∈ (list_statuses cfg t i a l o up).requests,
            x.headers = ("Authorization", "Bearer " ++ Config.key cfg)
              :: (if x.body.isSome then [("Content-Type", "application/json")] else [])))
  ∧ (∀ cfg t i a d up up',
        ((create_status cfg t i a d up).requests = (create_status cfg t i a d up').requests)
        ∧ (∀ x ∈ (create_status cfg t i a d up).requests,
            x.headers = ("Authorization", "Bearer " ++ Config.key cfg)
              :: (if x.body.isSome then [("Content-Type", "application/json")] else [])))
  ∧ (∀ cfg t i a si d up up',
        ((update_status cfg t i a si d up).requests = (update_status cfg t i a si d up').requests)
        ∧ (∀ x ∈ (update_status cfg t i a si d up).requests,
            x.headers = ("Authorization", "Bearer " ++ Config.key cfg)
              :: (if x.body.isSome then [("Content-Type", "application/json")] else [])))
  ∧ (∀ cfg up up',
        ((list_notes cfg up).requests = (list_notes cfg up').requests)
        ∧ (∀ x ∈ (list_notes cfg up).requests,
            x.headers = ("Authorization", "Bearer " ++ Config.key cfg)
              :: (if x.body.isSome then [("Content-Type", "application/json")] else [])))
  ∧ (∀ cfg d up up',
        ((create_note cfg d up).requests = (create_note cfg d up').requests)
        ∧ (∀ x ∈ (create_note cfg d up).requests,
            x.headers = ("Authorization", "Bearer " ++ Config.key cfg)
              :: (if x.body.isSome then [("Content-Type", "application/json")] else [])))
  ∧ (∀ cfg a up up',
        ((get_note cfg a up).requests = (get_note cfg a up').requests)
        ∧ (∀ x ∈ (get_note cfg a up).requests,
            x.headers = ("Authorization", "Bearer " ++ Config.key cfg)
              :: (if x.body.isSome then [("Content-Type", "application/json")] else [])))
  ∧ (∀ cfg a up up',
        ((delete_note cfg a up).requests = (delete_note cfg a up').requests)
        ∧ (∀ x ∈ (delete_note cfg a up).requests,
            x.headers = ("Authorization", "Bearer " ++ Config.key cfg)
              :: (if x.body.isSome then [("Content-Type", "application/json")] else [])))
  ∧ (∀ cfg l o up up',
        ((list_objects cfg l o up).requests = (list_objects cfg l o up').requests)
        ∧ (∀ x ∈ (list_objects cfg l o up).requests,
            x.headers = ("Authorization", "Bearer " ++ Config.key cfg)
              :: (if x.body.isSome then [("Content-Type", "application/json")] else [])))
  ∧ (∀ cfg d up up',
        ((create_object cfg d up).requests = (create_object cfg d up').requests)
        ∧ (∀ x ∈ (create_object cfg d up).requests,
            x.headers = ("Authorization", "Bearer " ++ Config.key cfg)
              :: (if x.body.isSome then [("Content-Type", "application/json")] else [])))
  ∧ (∀ cfg a up up',
        ((get_object cfg a up).requests = (get_object cfg a up').requests)
        ∧ (∀ x ∈ (get_object cfg a up).requests,
            x.headers = ("Authorization", "Bearer " ++ Config.key cfg)
              :: (if x.body.isSome then [("Content-Type", "application/json")] else [])))
  ∧ (∀ cfg a d up up',
        ((update_object cfg a d up).requests = (update_object cfg a d up').requests)
        ∧ (∀ x ∈ (update_object cfg a d up).requests,
            x.headers = ("Authorization", "Bearer " ++ Config.key cfg)
              :: (if x.body.isSome then [("Content-Type", "application/json")] else [])))
  ∧ (∀ cfg up up',
        ((list_tasks cfg up).requests = (list_tasks cfg up').requests)
        ∧ (∀ x ∈ (list_tasks cfg up).requests,
            x.headers = ("Authorization", "Bearer " ++ Config.key cfg)
              :: (if x.body.isSome then [("Content-Type", "application/json")] else [])))
  ∧ (∀ cfg d up up',
        ((create_task cfg d up).requests = (create_task cfg d up').requests)
        ∧ (∀ x ∈ (create_task cfg d up).requests,
            x.headers = ("Authorization", "Bearer " ++ Config.key cfg)
              :: (if x.body.isSome then [("Content-Type", "application/json")] else [])))
  ∧ (∀ cfg a up up',
        ((get_task cfg a up).requests = (get_task cfg a up').requests)
        ∧ (∀ x ∈ (get_task cfg a up).requests,
            x.headers = ("Authorization", "Bearer " ++ Config.key cfg)
              :: (if x.body.isSome then [("Content-Type", "application/json")] else [])))
  ∧ (∀ cfg a d up up',
        ((update_task cfg a d up).requests = (update_task cfg a d up').requests)
        ∧ (∀ x ∈ (update_task cfg a d up).requests,
            x.headers = ("Authorization", "Bearer " ++ Config.key cfg)
              :: (if x.body.isSome then [("Content-Type", "application/json")] else [])))
  ∧ (∀ cfg a up up',
        ((delete_task cfg a up).requests = (delete_task cfg a up').requests)
        ∧ (∀ x ∈ (delete_task cfg a up).requests,
            x.headers = ("Authorization", "Bearer " ++ Config.key cfg)
              :: (if x.body.isSome then [("Content-Type", "application/json")] else [])))
  ∧ (∀ cfg up up',
        ((list_workspace_members cfg up).requests = (list_workspace_members cfg up').requests)
        ∧ (∀ x ∈ (list_workspace_members cfg up).requests,
            x.headers = ("Authorization", "Bearer " ++ Config.key cfg)
              :: (if x.body.isSome then [("Content-Type", "application/json")] else [])))
  ∧ (∀ cfg a up up',
        ((get_workspace_member cfg a up).requests = (get_workspace_member cfg a up').requests)
        ∧ (∀ x ∈ (get_workspace_member cfg a up).requests,
            x.headers = ("Authorization", "Bearer " ++ Config.key cfg)
              :: (if x.body.isSome then [("Content-Type", "application/json")] else []))) :=
  ⟨fun cfg _ _ _ _ =>
     ⟨requireKey_requests_det cfg _ _ _, requireKey_headers cfg _ _ rfl⟩,
   fun cfg _ _ _ _ =>
     ⟨requireKey_requests_det cfg _ _ _, requireKey_headers cfg _ _ rfl⟩,
   fun cfg _ _ _ _ _ _ _ =>
     ⟨requireKey_requests_det cfg _ _ _, requireKey_headers cfg _ _ rfl⟩,
   fun cfg _ _ _ _ _ =>
     ⟨requireKey_requests_det cfg _ _ _, requireKey_headers cfg _ _ rfl⟩,
   fun cfg _ _ _ _ _ =>
     ⟨requireKey_requests_det cfg _ _ _, requireKey_headers cfg _ _ rfl⟩,
   fun cfg _ _ _ _ =>
     ⟨requireKey_requests_det cfg _ _ _, requireKey_headers cfg _ _ rfl⟩,
   fun cfg _ _ _ _ _ =>
     ⟨requireKey_requests_det cfg _ _ _, requireKey_headers cfg _ _ rfl⟩,
   fun cfg _ _ _ _ =>
     ⟨requireKey_requests_det cfg _ _ _, requireKey_headers cfg _ _ rfl⟩,
   fun cfg _ _ _ _ _ =>
     ⟨requireKey_requests_det cfg _ _ _, requireKey_headers cfg _ _ rfl⟩,
   fun cfg _ _ _ _ _ =>
     ⟨requireKey_requests_det cfg _ _ _, requireKey_headers cfg _ _ rfl⟩,
   fun cfg _ _ _ _ =>
     ⟨requireKey_requests_det cfg _ _ _, requireKey_headers cfg _ _ rfl⟩,
   fun cfg _ _ _ _ _ _ =>
     ⟨requireKey_requests_det cfg _ _ _, requireKey_headers cfg _ _ rfl⟩,
   fun cfg _ _ _ _ _ _ _ =>
     ⟨requireKey_requests_det cfg _ _ _, requireKey_headers cfg _ _ rfl⟩,
   fun cfg _ _ _ _ =>
     ⟨requireKey_requests_det cfg _ _ _, requireKey_headers cfg _ _ rfl⟩,
   fun cfg _ _ _ _ =>
     ⟨requireKey_requests_det cfg _ _ _, requireKey_headers cfg _ _ rfl⟩,
   fun cfg _ _ _ =>
     ⟨requireKey_requests_det cfg _ _ _, requireKey_headers cfg _ _ rfl⟩,
   fun cfg _ _ _ =>
     ⟨requireKey_requests_det cfg _ _ _, requireKey_headers cfg _ _ rfl⟩,
   fun cfg _ _ _ _ =>
     ⟨requireKey_requests_det cfg _ _ _, requireKey_headers cfg _ _ rfl⟩,
   fun cfg t _ _ _ _ _ =>
     ⟨requireKeyTT_requests_det cfg t _ _ _, requireKeyTT_headers cfg t _ _ rfl⟩,
   fun cfg t _ _ _ _ =>
     ⟨requireKeyTT_requests_det cfg t _ _ _, requireKeyTT_headers cfg t _ _ rfl⟩,
   fun cfg t _ _ _ _ =>
     ⟨requireKeyTT_requests_det cfg t _ _ _, requireKeyTT_headers cfg t _ _ rfl⟩,
   fun cfg t _ _ _ _ _ =>
     ⟨requireKeyTT_requests_det cfg t _ _ _, requireKeyTT_headers cfg t _ _ rfl⟩,
   fun cfg t _ _ _ _ _ _ =>
     ⟨requireKeyTT_requests_det cfg t _ _ _, requireKeyTT_headers cfg t _ _ rfl⟩,
   fun cfg t _ _ _ _ _ =>
     ⟨requireKeyTT_requests_det cfg t _ _ _, requireKeyTT_headers cfg t _ _ rfl⟩,
   fun cfg t _ _ _ _ _ _ =>
     ⟨requireKeyTT_requests_det cfg t _ _ _, requireKeyTT_headers cfg t _ _ rfl⟩,
   fun cfg t _ _ _ _ _ _ =>
     ⟨requireKeyTT_requests_det cfg t _ _ _, requireKeyTT_headers cfg t _ _ rfl⟩,
   fun cfg t _ _ _ _ _ =>
     ⟨requireKeyTT_requests_det cfg t _ _ _, requireKeyTT_headers cfg t _ _ rfl⟩,
   fun cfg t _ _ _ _ _ _ =>
     ⟨requireKeyTT_requests_det cfg t _ _ _, requireKeyTT_headers cfg t _ _ rfl⟩,
   fun cfg _ _ =>
     ⟨requireKey_requests_det cfg _ _ _, requireKey_headers cfg _ _ rfl⟩,
   fun cfg _ _ _ =>
     ⟨requireKey_requests_det cfg _ _ _, requireKey_headers cfg _ _ rfl⟩,
   fun cfg _ _ _ =>
     ⟨requireKey_requests_det cfg _ _ _, requireKey_headers cfg _ _ rfl⟩,
   fun cfg _ _ _ =>
     ⟨requireKey_requests_det cfg _ _ _, requireKey_headers cfg _ _ rfl⟩,
   fun cfg _ _ _ _ =>
     ⟨requireKey_requests_det cfg _ _ _, requireKey_headers cfg _ _ rfl⟩,
   fun cfg _ _ _ =>
     ⟨requireKey_requests_det cfg _ _ _, requireKey_headers cfg _ _ rfl⟩,
   fun cfg _ _ _ =>
     ⟨requireKey_requests_det cfg _ _ _, requireKey_headers cfg _ _ rfl⟩,
   fun cfg _ _ _ _ =>
     ⟨requireKey_requests_det cfg _ _ _, requireKey_headers cfg _ _ rfl⟩,
   fun cfg _ _ =>
     ⟨requireKey_requests_det cfg _ _ _, requireKey_headers cfg _ _ rfl⟩,
   fun cfg _ _ _ =>
     ⟨requireKey_requests_det cfg _ _ _, requireKey_headers cfg _ _ rfl⟩,
   fun cfg _ _ _ =>
     ⟨requireKey_requests_det cfg _ _ _, requireKey_headers cfg _ _ rfl⟩,
   fun cfg _ _ _ _ =>
     ⟨requireKey_requests_det cfg _ _ _, requireKey_headers cfg _ _ rfl⟩,
   fun cfg _ _ _ =>
     ⟨requireKey_requests_det cfg _ _ _, requireKey_headers cfg _ _ rfl⟩,
   fun cfg _ _ =>
     ⟨requireKey_requests_det cfg _ _ _, requireKey_headers cfg _ _ rfl⟩,
   fun cfg _ _ _ =>
     ⟨requireKey_requests_det cfg _ _ _, requireKey_headers cfg _ _ rfl⟩⟩

/-- Witness for C9 at concrete inputs: `create_list_entry` (JSON body, so
both headers) under two different upstream behaviors. -/
theorem c9_request_determinism_and_headers_witness :
    ((create_list_entry cfg0 "l" (.obj []) (.transportErr "x")).requests
        = (create_list_entry cfg0 "l" (.obj []) (.reply 200 (.decodable "{}" (.obj [])))).requests)
  ∧ (∀ x ∈ (create_list_entry cfg0 "l" (.obj []) (.transportErr "x")).requests,
      x.headers = ("Authorization", "Bearer " ++ Config.key cfg0)
        :: (if x.body.isSome then [("Content-Type", "application/json")] else [])) :=
  c9_request_determinism_and_headers.1 cfg0 "l" (.obj [])
    (.transportErr "x") (.reply 200 (.decodable "{}" (.obj [])))

theorem runA_transport_hasErrorKey (url : String) (onOk : Nat → Body → Except PyExc Json)
    (m : String) : Json.hasErrorKey (runA url (.transportErr m) onOk) = true := rfl

theorem runA_other_hasErrorKey (url : String) (onOk : Nat → Body → Except PyExc Json)
    (m : String) : Json.hasErrorKey (runA url (.otherErr m) onOk) = true := rfl

theorem runA_non2xx_hasErrorKey (url : String) (onOk : Nat → Body → Except PyExc Json)
    {s : Nat} (b : Body) (h : is2xx s = false) :
    Json.hasErrorKey (runA url (.reply s b) onOk) = true := by
  rw [runA_non2xx url onOk b h]; rfl

theorem runB_transport_hasErrorKey (onOk : Nat → Body → Except PyExc Json)
    (m : String) : Json.hasErrorKey (runB (.transportErr m) onOk) = true := rfl

theorem runB_other_hasErrorKey (onOk : Nat → Body → Except PyExc Json)
    (m : String) : Json.hasErrorKey (runB (.otherErr m) onOk) = true := rfl

theorem runB_non2xx_hasErrorKey (onOk : Nat → Body → Except PyExc Json)
    {s : Nat} (b : Body) (h : is2xx s = false) :
    Json.hasErrorKey (runB (.reply s b) onOk) = true := by
  rw [runB_non2xx onOk b h]; rfl

theorem runA_2xx_undecodable (url : String) {s : Nat} (tx em : String)
    (h2 : is2xx s = true) :
    runA url (.reply s (.undecodable tx em)) plainOk
      = .obj [("error", .str ("An unexpected error occurred: " ++ em))] := by
  simp [runA, attempt, h2, plainOk, Body.jsonE, classifyA]

theorem runA_2xx_decodable (url : String) {s : Nat} (tx : String) (j : Json)
    (h2 : is2xx s = true) :
    runA url (.reply s (.decodable tx j)) plainOk = j := by
  simp [runA, attempt, h2, plainOk, Body.jsonE]

theorem runB_2xx_undecodable {s : Nat} (tx em : String) (h2 : is2xx s = true) :
    runB (.reply s (.undecodable tx em)) plainOk
      = .obj [("error", .str ("An unexpected error occurred: " ++ em))] := by
  simp [runB, attempt, h2, plainOk, Body.jsonE, classifyB]

theorem runB_2xx_decodable {s : Nat} (tx : String) (j : Json) (h2 : is2xx s = true) :
    runB (.reply s (.decodable tx j)) plainOk = j := by
  simp [runB, attempt, h2, plainOk, Body.jsonE]

theorem runB_del_2xx_undecodable (d : Json) {s : Nat} (tx em : String)
    (h2 : is2xx s = true) (h4 : s ≠ 204) :
    runB (.reply s (.undecodable tx em)) (fun st b => if st == 204 then .ok d else b.jsonE)
      = .obj [("error", .str ("An unexpected error occurred: " ++ em))] := by
  have h5 : (s == 204) = false := by simpa using h4
  simp [runB, attempt, h2, h5, Body.jsonE, classifyB]

theorem runB_del_2xx_decodable (d : Json) {s : Nat} (tx : String) (j : Json)
    (h2 : is2xx s = true) (h4 : s ≠ 204) :
    runB (.reply s (.decodable tx j)) (fun st b => if st == 204 then .ok d else b.jsonE)
      = j := by
  have h5 : (s == 204) = false := by simpa using h4
  simp [runB, attempt, h2, h5, Body.jsonE]

theorem runB_del_204 (d : Json) (bd : Body) :
    runB (.reply 204 bd) (fun st b => if st == 204 then .ok d else b.jsonE) = d := rfl

theorem requireKey_result_hasErrorKey (cfg : Config) (r : Request) {j : Json}
    (hj : Json.hasErrorKey j = true) :
    Json.hasErrorKey (requireKey cfg ⟨[r], j⟩).result = true := by
  cases h : cfg.keySet
  · simp [requireKey, h, errNoKey, Json.hasErrorKey]
  · simpa [requireKey, h] using hj

theorem requireKeyTT_result_hasErrorKey (cfg : Config) (t : String) (r : Request) {j : Json}
    (hj : Json.hasErrorKey j = true) :
    Json.hasErrorKey (requireKey cfg (requireTargetType t ⟨[r], j⟩)).result = true := by
  cases h : cfg.keySet <;> by_cases ht : (t = "objects" ∨ t = "lists")
  · simp [requireKey, h, errNoKey, Json.hasErrorKey]
  · simp [requireKey, h, errNoKey, Json.hasErrorKey]
  · simpa [requireKey, requireTargetType, h, ht] using hj
  · simp [requireKey, requireTargetType, h, ht, errInvalidTT, Json.hasErrorKey]

/-- C3 counterexample: the claim says every tool "returns a dictionary
result" for any upstream body, but a 2xx body decoding to a JSON array is
returned verbatim — a list, not a dictionary. -/
theorem c3_counterexample_non_dict_success :
    (get_note cfg0 "n1" (.reply 200 (.decodable "[1, 2]" (.arr [.num 1, .num 2])))).result
      = .arr [.num 1, .num 2]
  ∧ Json.isObj (.arr [.num 1, .num 2]) = false :=
  ⟨rfl, rfl⟩


/-- C3 amended: every tool is total over every upstream behavior (the
embedding is a total function — no exception escapes the tool), and for
every tool: a transport error, an unexpected exception, or a non-2xx reply
always yields a dictionary carrying an `"error"` key; with a credential
configured (and a valid `target_type` where one is taken), a 2xx reply
whose body does not JSON-decode yields exactly
`{"error": "An unexpected error occurred: <decode-error message>"}` and a
2xx reply whose body decodes is returned verbatim — a dictionary exactly
when the upstream sent a JSON object — except that `delete_record`,
`delete_note` and `delete_task` return their fixed success dictionary on
any 204 reply without touching the body.  One conjunct per tool. -/
theorem c3_no_raise_tagged_failures :
    (∀ cfg a b,
        (∀ m, Json.hasErrorKey (create_list_entry cfg a b (.transportErr m)).result = true)
      ∧ (∀ m, Json.hasErrorKey (create_list_entry cfg a b (.otherErr m)).result = true)
      ∧ (∀ s bd, is2xx s = false →
          Json.hasErrorKey (create_list_entry cfg a b (.reply s bd)).result = true)
      ∧ (∀ s tx em, is2xx s = true → Config.keySet cfg = true →
          (create_list_entry cfg a b (.reply s (.undecodable tx em))).result
            = .obj [("error", .str ("An unexpected error occurred: " ++ em))])
      ∧ (∀ s tx j, is2xx s = true → Config.keySet cfg = true →
          (create_list_entry cfg a b (.reply s (.decodable tx j))).result = j))
  ∧ (∀ cfg a b,
        (∀ m, Json.hasErrorKey (get_list_entry cfg a b (.transportErr m)).result = true)
      ∧ (∀ m, Json.hasErrorKey (get_list_entry cfg a b (.otherErr m)).result = true)
      ∧ (∀ s bd, is2xx s = false →
          Json.hasErrorKey (get_list_entry cfg a b (.reply s bd)).result = true)
      ∧ (∀ s tx em, is2xx s = true → Config.keySet cfg = true →
          (get_list_entry cfg a b (.reply s (.undecodable tx em))).result
            = .obj [("error", .str ("An unexpected error occurred: " ++ em))])
      ∧ (∀ s tx j, is2xx s = true → Config.keySet cfg = true →
          (get_list_entry cfg a b (.reply s (.decodable tx j))).result = j))
  ∧ (∀ cfg a f so l o,
        (∀ m, Json.hasErrorKey (list_entries cfg a f so l o (.transportErr m)).result = true)
      ∧ (∀ m, Json.hasErrorKey (list_entries cfg a f so l o (.otherErr m)).result = true)
      ∧ (∀ s bd, is2xx s = false →
          Json.hasErrorKey (list_entries cfg a f so l o (.reply s bd)).result = true)
      ∧ (∀ s tx em, is2xx s = true → Config.keySet cfg = true →
          (list_entries cfg a f so l o (.reply s (.undecodable tx em))).result
            = .obj [("error", .str ("An unexpected error occurred: " ++ em))])
      ∧ (∀ s tx j, is2xx s = true → Config.keySet cfg = true →
          (list_entries cfg a f so l o (.reply s (.decodable tx j))).result = j))
  ∧ (∀ cfg a b d,
        (∀ m, Json.hasErrorKey (update_list_entry_overwrite cfg a b d (.transportErr m)).result = true)
      ∧ (∀ m, Json.hasErrorKey (update_list_entry_overwrite cfg a b d (.otherErr m)).result = true)
      ∧ (∀ s bd, is2xx s = false →
          Json.hasErrorKey (update_list_entry_overwrite cfg a b d (.reply s bd)).result = true)
      ∧ (∀ s tx em, is2xx s = true → Config.keySet cfg = true →
          (update_list_entry_overwrite cfg a b d (.reply s (.undecodable tx em))).result
            = .obj [("error", .str ("An unexpected error occurred: " ++ em))])
      ∧ (∀ s tx j, is2xx s = true → Config.keySet cfg = true →
          (update_list_entry_overwrite cfg a b d (.reply s (.decodable tx j))).result = j))
  ∧ (∀ cfg a b d,
        (∀ m, Json.hasErrorKey (update_list_entry_append cfg a b d (.transportErr m)).result = true)
      ∧ (∀ m, Json.hasErrorKey (update_list_entry_append cfg a b d (.otherErr m)).result = true)
      ∧ (∀ s bd, is2xx s = false →
          Json.hasErrorKey (update_list_entry_append cfg a b d (.reply s bd)).result = true)
      ∧ (∀ s tx em, is2xx s = true → Config.keySet cfg = true →
          (update_list_entry_append cfg a b d (.reply s (.undecodable tx em))).result
            = .obj [("error", .str ("An unexpected error occurred: " ++ em))])
      ∧ (∀ s tx j, is2xx s = true → Config.keySet cfg = true →
          (update_list_entry_append cfg a b d (.reply s (.decodable tx j))).result = j))
  ∧ (∀ cfg a b,
        (∀ m, Json.hasErrorKey (delete_list_entry cfg a b (.transportErr m)).result = true)
      ∧ (∀ m, Json.hasErrorKey (delete_list_entry cfg a b (.otherErr m)).result = true)
      ∧ (∀ s bd, is2xx s = false →
          Json.hasErrorKey (delete_list_entry cfg a b (.reply s bd)).result = true)
      ∧ (∀ s tx em, is2xx s = true → Config.keySet cfg = true →
          (delete_list_entry cfg a b (.reply s (.undecodable tx em))).result
            = .obj [("error", .str ("An unexpected error occurred: " ++ em))])
      ∧ (∀ s tx j, is2xx s = true → Config.keySet cfg = true →
          (delete_list_entry cfg a b (.reply s (.decodable tx j))).result = j))
  ∧ (∀ cfg a b c,
        (∀ m, Json.hasErrorKey (get_list_entry_attribute_values cfg a b c (.transportErr m)).result = true)
      ∧ (∀ m, Json.hasErrorKey (get_list_entry_attribute_values cfg a b c (.otherErr m)).result = true)
      ∧ (∀ s bd, is2xx s = false →
          Json.hasErrorKey (get_list_entry_attribute_values cfg a b c (.reply s bd)).result = true)
      ∧ (∀ s tx em, is2xx s = true → Config.keySet cfg = true →
          (get_list_entry_attribute_values cfg a b c (.reply s (.undecodable tx em))).result
            = .obj [("error", .str ("An unexpected error occurred: " ++ em))])
      ∧ (∀ s tx j, is2xx s = true → Config.keySet cfg = true →
          (get_list_entry_attribute_values cfg a b c (.reply s (.decodable tx j))).result = j))
  ∧ (∀ cfg a b,
        (∀ m, Json.hasErrorKey (get_record cfg a b (.transportErr m)).result = true)
      ∧ (∀ m, Json.hasErrorKey (get_record cfg a b (.otherErr m)).result = true)
      ∧ (∀ s bd, is2xx s = false →
          Json.hasErrorKey (get_record cfg a b (.reply s bd)).result = true)
      ∧ (∀ s tx em, is2xx s = true → Config.keySet cfg = true →
          (get_record cfg a b (.reply s (.undecodable tx em))).result
            = .obj [("error", .str ("An unexpected error occurred: " ++ em))])
      ∧ (∀ s tx j, is2xx s = true → Config.keySet cfg = true →
          (get_record cfg a b (.reply s (.decodable tx j))).result = j))
  ∧ (∀ cfg a b d,
        (∀ m, Json.hasErrorKey (update_record_overwrite cfg a b d (.transportErr m)).result = true)
      ∧ (∀ m, Json.hasErrorKey (update_record_overwrite cfg a b d (.otherErr m)).result = true)
      ∧ (∀ s bd, is2xx s = false →
          Json.hasErrorKey (update_record_overwrite cfg a b d (.reply s bd)).result = true)
      ∧ (∀ s tx em, is2xx s = true → Config.keySet cfg = true →
          (update_record_overwrite cfg a b d (.reply s (.undecodable tx em))).result
            = .obj [("error", .str ("An unexpected error occurred: " ++ em))])
      ∧ (∀ s tx j, is2xx s = true → Config.keySet cfg = true →
          (update_record_overwrite cfg a b d (.reply s (.decodable tx j))).result = j))
  ∧ (∀ cfg a b d,
        (∀ m, Json.hasErrorKey (update_record_append cfg a b d (.transportErr m)).result = true)
      ∧ (∀ m, Json.hasErrorKey (update_record_append cfg a b d (.otherErr m)).result = true)
      ∧ (∀ s bd, is2xx s = false →
          Json.hasErrorKey (update_record_append cfg a b d (.reply s bd)).result = true)
      ∧ (∀ s tx em, is2xx s = true → Config.keySet cfg = true →
          (update_record_append cfg a b d (.reply s (.undecodable tx em))).result
            = .obj [("error", .str ("An unexpected error occurred: " ++ em))])
      ∧ (∀ s tx j, is2xx s = true → Config.keySet cfg = true →
          (update_record_append cfg a b d (.reply s (.decodable tx j))).result = j))
  ∧ (∀ cfg a b,
        (∀ m, Json.hasErrorKey (delete_record cfg a b (.transportErr m)).result = true)
      ∧ (∀ m, Json.hasErrorKey (delete_record cfg a b (.otherErr m)).result = true)
      ∧ (∀ s bd, is2xx s = false →
          Json.hasErrorKey (delete_record cfg a b (.reply s bd)).result = true)
      ∧ (∀ s tx em, is2xx s = true → s ≠ 204 → Config.keySet cfg = true →
          (delete_record cfg a b (.reply s (.undecodable tx em))).result
            = .obj [("error", .str ("An unexpected error occurred: " ++ em))])
      ∧ (∀ s tx j, is2xx s = true → s ≠ 204 → Config.keySet cfg = true →
          (delete_record cfg a b (.reply s (.decodable tx j))).result = j)
      ∧ (∀ bd, Config.keySet cfg = true →
          (delete_record cfg a b (.reply 204 bd)).result = deleteRecordSuccess b))
  ∧ (∀ cfg a b l o,
        (∀ m, Json.hasErrorKey (list_record_entries cfg a b l o (.transportErr m)).result = true)
      ∧ (∀ m, Json.hasErrorKey (list_record_entries cfg a b l o (.otherErr m)).result = true)
      ∧ (∀ s bd, is2xx s = false →
          Json.hasErrorKey (list_record_entries cfg a b l o (.reply s bd)).result = true)
      ∧ (∀ s tx em, is2xx s = true → Config.keySet cfg = true →
          (list_record_entries cfg a b l o (.reply s (.undecodable tx em))).result
            = .obj [("error", .str ("An unexpected error occurred: " ++ em))])
      ∧ (∀ s tx j, is2xx s = true → Config.keySet cfg = true →
          (list_record_entries cfg a b l o (.reply s (.decodable tx j))).result = j))
  ∧ (∀ cfg a f so l o,
        (∀ m, Json.hasErrorKey (list_records cfg a f so l o (.transportErr m)).result = true)
      ∧ (∀ m, Json.hasErrorKey (list_records cfg a f so l o (.otherErr m)).result = true)
      ∧ (∀ s bd, is2xx s = false →
          Json.hasErrorKey (list_records cfg a f so l o (.reply s bd)).result = true)
      ∧ (∀ s tx em, is2xx s = true → Config.keySet cfg = true →
          (list_records cfg a f so l o (.reply s (.undecodable tx em))).result
            = .obj [("error", .str ("An unexpected error occurred: " ++ em))])
      ∧ (∀ s tx j, is2xx s = true → Config.keySet cfg = true →
          (list_records cfg a f so l o (.reply s (.decodable tx j))).result = j))
  ∧ (∀ cfg a d,
        (∀ m, Json.hasErrorKey (create_record cfg a d (.transportErr m)).result = true)
      ∧ (∀ m, Json.hasErrorKey (create_record cfg a d (.otherErr m)).result = true)
      ∧ (∀ s bd, is2xx s = false →
          Json.hasErrorKey (create_record cfg a d (.reply s bd)).result = true)
      ∧ (∀ s tx em, is2xx s = true → Config.keySet cfg = true →
          (create_record cfg a d (.reply s (.undecodable tx em))).result
            = .obj [("error", .str ("An unexpected error occurred: " ++ em))])
      ∧ (∀ s tx j, is2xx s = true → Config.keySet cfg = true →
          (create_record cfg a d (.reply s (.decodable tx j))).result = j))
  ∧ (∀ cfg l o,
        (∀ m, Json.hasErrorKey (list_lists cfg l o (.transportErr m)).result = true)
      ∧ (∀ m, Json.hasErrorKey (list_lists cfg l o (.otherErr m)).result = true)
      ∧ (∀ s bd, is2xx s = false →
          Json.hasErrorKey (list_lists cfg l o (.reply s bd)).result = true)
      ∧ (∀ s tx em, is2xx s = true → Config.keySet cfg = true →
          (list_lists cfg l o (.reply s (.undecodable tx em))).result
            = .obj [("error", .str ("An unexpected error occurred: " ++ em))])
      ∧ (∀ s tx j, is2xx s = true → Config.keySet cfg = true →
          (list_lists cfg l o (.reply s (.decodable tx j))).result = j))
  ∧ (∀ cfg d,
        (∀ m, Json.hasErrorKey (create_list cfg d (.transportErr m)).result = true)
      ∧ (∀ m, Json.hasErrorKey (create_list cfg d (.otherErr m)).result = true)
      ∧ (∀ s bd, is2xx s = false →
          Json.hasErrorKey (create_list cfg d (.reply s bd)).result = true)
      ∧ (∀ s tx em, is2xx s = true → Config.keySet cfg = true →
          (create_list cfg d (.reply s (.undecodable tx em))).result
            = .obj [("error", .str ("An unexpected error occurred: " ++ em))])
      ∧ (∀ s tx j, is2xx s = true → Config.keySet cfg = true →
          (create_list cfg d (.reply s (.decodable tx j))).result = j))
  ∧ (∀ cfg a,
        (∀ m, Json.hasErrorKey (get_list cfg a (.transportErr m)).result = true)
      ∧ (∀ m, Json.hasErrorKey (get_list cfg a (.otherErr m)).result = true)
      ∧ (∀ s bd, is2xx s = false →
          Json.hasErrorKey (get_list cfg a (.reply s bd)).result = true)
      ∧ (∀ s tx em, is2xx s = true → Config.keySet cfg = true →
          (get_list cfg a (.reply s (.undecodable tx em))).result
            = .obj [("error", .str ("An unexpected error occurred: " ++ em))])
      ∧ (∀ s tx j, is2xx s = true → Config.keySet cfg = true →
          (get_list cfg a (.reply s (.decodable tx j))).result = j))
  ∧ (∀ cfg a d,
        (∀ m, Json.hasErrorKey (update_list cfg a d (.transportErr m)).result = true)
      ∧ (∀ m, Json.hasErrorKey (update_list cfg a d (.otherErr m)).result = true)
      ∧ (∀ s bd, is2xx s = false →
          Json.hasErrorKey (update_list cfg a d (.reply s bd)).result = true)
      ∧ (∀ s tx em, is2xx s = true → Config.keySet cfg = true →
          (update_list cfg a d (.reply s (.undecodable tx em))).result
            = .obj [("error", .str ("An unexpected error occurred: " ++ em))])
      ∧ (∀ s tx j, is2xx s = true → Config.keySet cfg = true →
          (update_list cfg a d (.reply s (.decodable tx j))).result = j))
  ∧ (∀ cfg t i l o,
        (∀ m, Json.hasErrorKey (list_attributes cfg t i l o (.transportErr m)).result = true)
      ∧ (∀ m, Json.hasErrorKey (list_attributes cfg t i l o (.otherErr m)).result = true)
      ∧ (∀ s bd, is2xx s = false →
          Json.hasErrorKey (list_attributes cfg t i l o (.reply s bd)).result = true)
      ∧ (∀ s tx em, is2xx s = true → Config.keySet cfg = true →
          (t = "objects" ∨ t = "lists") →
          (list_attributes cfg t i l o (.reply s (.undecodable tx em))).result
            = .obj [("error", .str ("An unexpected error occurred: " ++ em))])
      ∧ (∀ s tx j, is2xx s = true → Config.keySet cfg = true →
          (t = "objects" ∨ t = "lists") →
          (list_attributes cfg t i l o (.reply s (.decodable tx j))).result = j))
  ∧ (∀ cfg t i d,
        (∀ m, Json.hasErrorKey (create_attribute cfg t i d (.transportErr m)).result = true)
      ∧ (∀ m, Json.hasErrorKey (create_attribute cfg t i d (.otherErr m)).result = true)
      ∧ (∀ s bd, is2xx s = false →
          Json.hasErrorKey (create_attribute cfg t i d (.reply s bd)).result = true)
      ∧ (∀ s tx em, is2xx s = true → Config.keySet cfg = true →
          (t = "objects" ∨ t = "lists") →
          (create_attribute cfg t i d (.reply s (.undecodable tx em))).result
            = .obj [("error", .str ("An unexpected error occurred: " ++ em))])
      ∧ (∀ s tx j, is2xx s = true → Config.keySet cfg = true →
          (t = "objects" ∨ t = "lists") →
          (create_attribute cfg t i d (.reply s (.decodable tx j))).result = j))
  ∧ (∀ cfg t i a,
        (∀ m, Json.hasErrorKey (get_attribute cfg t i a (.transportErr m)).result = true)
      ∧ (∀ m, Json.hasErrorKey (get_attribute cfg t i a (.otherErr m)).result = true)
      ∧ (∀ s bd, is2xx s = false →
          Json.hasErrorKey (get_attribute cfg t i a (.reply s bd)).result = true)
      ∧ (∀ s tx em, is2xx s = true → Config.keySet cfg = true →
          (t = "objects" ∨ t = "lists") →
          (get_attribute cfg t i a (.reply s (.undecodable tx em))).result
            = .obj [("error", .str ("An unexpected error occurred: " ++ em))])
      ∧ (∀ s tx j, is2xx s = true → Config.keySet cfg = true →
          (t = "objects" ∨ t = "lists") →
          (get_attribute cfg t i a (.reply s (.decodable tx j))).result = j))
  ∧ (∀ cfg t i a d,
        (∀ m, Json.hasErrorKey (update_attribute cfg t i a d (.transportErr m)).result = true)
      ∧ (∀ m, Json.hasErrorKey (update_attribute cfg t i a d (.otherErr m)).result = true)
      ∧ (∀ s bd, is2xx s = false →
          Json.hasErrorKey (update_attribute cfg t i a d (.reply s bd)).result = true)
      ∧ (∀ s tx em, is2xx s = true → Config.keySet cfg = true →
          (t = "objects" ∨ t = "lists") →
          (update_attribute cfg t i a d (.reply s (.undecodable tx em))).result
            = .obj [("error", .str ("An unexpected error occurred: " ++ em))])
      ∧ (∀ s tx j, is2xx s = true → Config.keySet cfg = true →
          (t = "objects" ∨ t = "lists") →
          (update_attribute cfg t i a d (.reply s (.decodable tx j))).result = j))
  ∧ (∀ cfg t i a l o,
        (∀ m, Json.hasErrorKey (list_select_options cfg t i a l o (.transportErr m)).result = true)
      ∧ (∀ m, Json.hasErrorKey (list_select_options cfg t i a l o (.otherErr m)).result = true)
      ∧ (∀ s bd, is2xx s = false →
          Json.hasErrorKey (list_select_options cfg t i a l o (.reply s bd)).result = true)
      ∧ (∀ s tx em, is2xx s = true → Config.keySet cfg = true →
          (t = "objects" ∨ t = "lists") →
          (list_select_options cfg t i a l o (.reply s (.undecodable tx em))).result
            = .obj [("error", .str ("An unexpected error occurred: " ++ em))])
      ∧ (∀ s tx j, is2xx s = true → Config.keySet cfg = true →
          (t = "objects" ∨ t = "lists") →
          (list_select_options cfg t i a l o (.reply s (.decodable tx j))).result = j))
  ∧ (∀ cfg t i a d,
        (∀ m, Json.hasErrorKey (create_select_option cfg t i a d (.transportErr m)).result = true)
      ∧ (∀ m, Json.hasErrorKey (create_select_option cfg t i a d (.otherErr m)).result = true)
      ∧ (∀ s bd, is2xx s = false →
          Json.hasErrorKey (create_select_option cfg t i a d (.reply s bd)).result = true)
      ∧ (∀ s tx em, is2xx s = true → Config.keySet cfg = true →
          (t = "objects" ∨ t = "lists") →
          (create_select_option cfg t i a d (.reply s (.undecodable tx em))).result
            = .obj [("error", .str ("An unexpected error occurred: " ++ em))])
      ∧ (∀ s tx j, is2xx s = true → Config.keySet cfg = true →
          (t = "objects" ∨ t = "lists") →
          (create_select_option cfg t i a d (.reply s (.decodable tx j))).result = j))
  ∧ (∀ cfg t i a oi d,
        (∀ m, Json.hasErrorKey (update_select_option cfg t i a oi d (.transportErr m)).result = true)
      ∧ (∀ m, Json.hasErrorKey (update_select_option cfg t i a oi d (.otherErr m)).result = true)
      ∧ (∀ s bd, is2xx s = false →
          Json.hasErrorKey (update_select_option cfg t i a oi d (.reply s bd)).result = true)
      ∧ (∀ s tx em, is2xx s = true → Config.keySet cfg = true →
          (t = "objects" ∨ t = "lists") →
          (update_select_option cfg t i a oi d (.reply s (.undecodable tx em))).result
            = .obj [("error", .str ("An unexpected error occurred: " ++ em))])
      ∧ (∀ s tx j, is2xx s = true → Config.keySet cfg = true →
          (t = "objects" ∨ t = "lists") →
          (update_select_option cfg t i a oi d (.reply s (.decodable tx j))).result = j))
  ∧ (∀ cfg t i a l o,
        (∀ m, Json.hasErrorKey (list_statuses cfg t i a l o (.transportErr m)).result = true)
      ∧ (∀ m, Json.hasErrorKey (list_statuses cfg t i a l o (.otherErr m)).result = true)
      ∧ (∀ s bd, is2xx s = false →
          Json.hasErrorKey (list_statuses cfg t i a l o (.reply s bd)).result = true)
      ∧ (∀ s tx em, is2xx s = true → Config.keySet cfg = true →
          (t = "objects" ∨ t = "lists") →
          (list_statuses cfg t i a l o (.reply s (.undecodable tx em))).result
            = .obj [("error", .str ("An unexpected error occurred: " ++ em))])
      ∧ (∀ s tx j, is2xx s = true → Config.keySet cfg = true →
          (t = "objects" ∨ t = "lists") →
          (list_statuses cfg t i a l o (.reply s (.decodable tx j))).result = j))
  ∧ (∀ cfg t i a d,
        (∀ m, Json.hasErrorKey (create_status cfg t i a d (.transportErr m)).result = true)
      ∧ (∀ m, Json.hasErrorKey (create_status cfg t i a d (.otherErr m)).result = true)
      ∧ (∀ s bd, is2xx s = false →
          Json.hasErrorKey (create_status cfg t i a d (.reply s bd)).result = true)
      ∧ (∀ s tx em, is2xx s = true → Config.keySet cfg = true →
          (t = "objects" ∨ t = "lists") →
          (create_status cfg t i a d (.reply s (.undecodable tx em))).result
            = .obj [("error", .str ("An unexpected error occurred: " ++ em))])
      ∧ (∀ s tx j, is2xx s = true → Config.keySet cfg = true →
          (t = "objects" ∨ t = "lists") →
          (create_status cfg t i a d (.reply s (.decodable tx j))).result = j))
  ∧ (∀ cfg t i a si d,
        (∀ m, Json.hasErrorKey (update_status cfg t i a si d (.transportErr m)).result = true)
      ∧ (∀ m, Json.hasErrorKey (update_status cfg t i a si d (.otherErr m)).result = true)
      ∧ (∀ s bd, is2xx s = false →
          Json.hasErrorKey (update_status cfg t i a si d (.reply s bd)).result = true)
      ∧ (∀ s tx em, is2xx s = true → Config.keySet cfg = true →
          (t = "objects" ∨ t = "lists") →
          (update_status cfg t i a si d (.reply s (.undecodable tx em))).result
            = .obj [("error", .str ("An unexpected error occurred: " ++ em))])
      ∧ (∀ s tx j, is2xx s = true → Config.keySet cfg = true →
          (t = "objects" ∨ t = "lists") →
          (update_status cfg t i a si d (.reply s (.decodable tx j))).result = j))
  ∧ (∀ cfg,
        (∀ m, Json.hasErrorKey (list_notes cfg (.transportErr m)).result = true)
      ∧ (∀ m, Json.hasErrorKey (list_notes cfg (.otherErr m)).result = true)
      ∧ (∀ s bd, is2xx s = false →
          Json.hasErrorKey (list_notes cfg (.reply s bd)).result = true)
      ∧ (∀ s tx em, is2xx s = true → Config.keySet cfg = true →
          (list_notes cfg (.reply s (.undecodable tx em))).result
            = .obj [("error", .str ("An unexpected error occurred: " ++ em))])
      ∧ (∀ s tx j, is2xx s = true → Config.keySet cfg = true →
          (list_notes cfg (.reply s (.decodable tx j))).result = j))
  ∧ (∀ cfg d,
        (∀ m, Json.hasErrorKey (create_note cfg d (.transportErr m)).result = true)
      ∧ (∀ m, Json.hasErrorKey (create_note cfg d (.otherErr m)).result = true)
      ∧ (∀ s bd, is2xx s = false →
          Json.hasErrorKey (create_note cfg d (.reply s bd)).result = true)
      ∧ (∀ s tx em, is2xx s = true → Config.keySet cfg = true →
          (create_note cfg d (.reply s (.undecodable tx em))).result
            = .obj [("error", .str ("An unexpected error occurred: " ++ em))])
      ∧ (∀ s tx j, is2xx s = true → Config.keySet cfg = true →
          (create_note cfg d (.reply s (.decodable tx j))).result = j))
  ∧ (∀ cfg a,
        (∀ m, Json.hasErrorKey (get_note cfg a (.transportErr m)).result = true)
      ∧ (∀ m, Json.hasErrorKey (get_note cfg a (.otherErr m)).result = true)
      ∧ (∀ s bd, is2xx s = false →
          Json.hasErrorKey (get_note cfg a (.reply s bd)).result = true)
      ∧ (∀ s tx em, is2xx s = true → Config.keySet cfg = true →
          (get_note cfg a (.reply s (.undecodable tx em))).result
            = .obj [("error", .str ("An unexpected error occurred: " ++ em))])
      ∧ (∀ s tx j, is2xx s = true → Config.keySet cfg = true →
          (get_note cfg a (.reply s (.decodable tx j))).result = j))
  ∧ (∀ cfg a,
        (∀ m, Json.hasErrorKey (delete_note cfg a (.transportErr m)).result = true)
      ∧ (∀ m, Json.hasErrorKey (delete_note cfg a (.otherErr m)).result = true)
      ∧ (∀ s bd, is2xx s = false →
          Json.hasErrorKey (delete_note cfg a (.reply s bd)).result = true)
      ∧ (∀ s tx em, is2xx s = true → s ≠ 204 → Config.keySet cfg = true →
          (delete_note cfg a (.reply s (.undecodable tx em))).result
            = .obj [("error", .str ("An unexpected error occurred: " ++ em))])
      ∧ (∀ s tx j, is2xx s = true → s ≠ 204 → Config.keySet cfg = true →
          (delete_note cfg a (.reply s (.decodable tx j))).result = j)
      ∧ (∀ bd, Config.keySet cfg = true →
          (delete_note cfg a (.reply 204 bd)).result = deleteNoteSuccess a))
  ∧ (∀ cfg l o,
        (∀ m, Json.hasErrorKey (list_objects cfg l o (.transportErr m)).result = true)
      ∧ (∀ m, Json.hasErrorKey (list_objects cfg l o (.otherErr m)).result = true)
      ∧ (∀ s bd, is2xx s = false →
          Json.hasErrorKey (list_objects cfg l o (.reply s bd)).result = true)
      ∧ (∀ s tx em, is2xx s = true → Config.keySet cfg = true →
          (list_objects cfg l o (.reply s (.undecodable tx em))).result
            = .obj [("error", .str ("An unexpected error occurred: " ++ em))])
      ∧ (∀ s tx j, is2xx s = true → Config.keySet cfg = true →
          (list_objects cfg l o (.reply s (.decodable tx j))).result = j))
  ∧ (∀ cfg d,
        (∀ m, Json.hasErrorKey (create_object cfg d (.transportErr m)).result = true)
      ∧ (∀ m, Json.hasErrorKey (create_object cfg d (.otherErr m)).result = true)
      ∧ (∀ s bd, is2xx s = false →
          Json.hasErrorKey (create_object cfg d (.reply s bd)).result = true)
      ∧ (∀ s tx em, is2xx s = true → Config.keySet cfg = true →
          (create_object cfg d (.reply s (.undecodable tx em))).result
            = .obj [("error", .str ("An unexpected error occurred: " ++ em))])
      ∧ (∀ s tx j, is2xx s = true → Config.keySet cfg = true →
          (create_object cfg d (.reply s (.decodable tx j))).result = j))
  ∧ (∀ cfg a,
        (∀ m, Json.hasErrorKey (get_object cfg a (.transportErr m)).result = true)
      ∧ (∀ m, Json.hasErrorKey (get_object cfg a (.otherErr m)).result = true)
      ∧ (∀ s bd, is2xx s = false →
          Json.hasErrorKey (get_object cfg a (.reply s bd)).result = true)
      ∧ (∀ s tx em, is2xx s = true → Config.keySet cfg = true →
          (get_object cfg a (.reply s (.undecodable tx em))).result
            = .obj [("error", .str ("An unexpected error occurred: " ++ em))])
      ∧ (∀ s tx j, is2xx s = true → Config.keySet cfg = true →
          (get_object cfg a (.reply s (.decodable tx j))).result = j))
  ∧ (∀ cfg a d,
        (∀ m, Json.hasErrorKey (update_object cfg a d (.transportErr m)).result = true)
      ∧ (∀ m, Json.hasErrorKey (update_object cfg a d (.otherErr m)).result = true)
      ∧ (∀ s bd, is2xx s = false →
          Json.hasErrorKey (update_object cfg a d (.reply s bd)).result = true)
      ∧ (∀ s tx em, is2xx s = true → Config.keySet cfg = true →
          (update_object cfg a d (.reply s (.undecodable tx em))).result
            = .obj [("error", .str ("An unexpected error occurred: " ++ em))])
      ∧ (∀ s tx j, is2xx s = true → Config.keySet cfg = true →
          (update_object cfg a d (.reply s (.decodable tx j))).result = j))
  ∧ (∀ cfg,
        (∀ m, Json.hasErrorKey (list_tasks cfg (.transportErr m)).result = true)
      ∧ (∀ m, Json.hasErrorKey (list_tasks cfg (.otherErr m)).result = true)
      ∧ (∀ s bd, is2xx s = false →
          Json.hasErrorKey (list_tasks cfg (.reply s bd)).result = true)
      ∧ (∀ s tx em, is2xx s = true → Config.keySet cfg = true →
          (list_tasks cfg (.reply s (.undecodable tx em))).result
            = .obj [("error", .str ("An unexpected error occurred: " ++ em))])
      ∧ (∀ s tx j, is2xx s = true → Config.keySet cfg = true →
          (list_tasks cfg (.reply s (.decodable tx j))).result = j))
  ∧ (∀ cfg d,
        (∀ m, Json.hasErrorKey (create_task cfg d (.transportErr m)).result = true)
      ∧ (∀ m, Json.hasErrorKey (create_task cfg d (.otherErr m)).result = true)
      ∧ (∀ s bd, is2xx s = false →
          Json.hasErrorKey (create_task cfg d (.reply s bd)).result = true)
      ∧ (∀ s tx em, is2xx s = true → Config.keySet cfg = true →
          (create_task cfg d (.reply s (.undecodable tx em))).result
            = .obj [("error", .str ("An unexpected error occurred: " ++ em))])
      ∧ (∀ s tx j, is2xx s = true → Config.keySet cfg = true →
          (create_task cfg d (.reply s (.decodable tx j))).result = j))
  ∧ (∀ cfg a,
        (∀ m, Json.hasErrorKey (get_task cfg a (.transportErr m)).result = true)
      ∧ (∀ m, Json.hasErrorKey (get_task cfg a (.otherErr m)).result = true)
      ∧ (∀ s bd, is2xx s = false →
          Json.hasErrorKey (get_task cfg a (.reply s bd)).result = true)
      ∧ (∀ s tx em, is2xx s = true → Config.keySet cfg = true →
          (get_task cfg a (.reply s (.undecodable tx em))).result
            = .obj [("error", .str ("An unexpected error occurred: " ++ em))])
      ∧ (∀ s tx j, is2xx s = true → Config.keySet cfg = true →
          (get_task cfg a (.reply s (.decodable tx j))).result = j))
  ∧ (∀ cfg a d,
        (∀ m, Json.hasErrorKey (update_task cfg a d (.transportErr m)).result = true)
      ∧ (∀ m, Json.hasErrorKey (update_task cfg a d (.otherErr m)).result = true)
      ∧ (∀ s bd, is2xx s = false →
          Json.hasErrorKey (update_task cfg a d (.reply s bd)).result = true)
      ∧ (∀ s tx em, is2xx s = true → Config.keySet cfg = true →
          (update_task cfg a d (.reply s (.undecodable tx em))).result
            = .obj [("error", .str ("An unexpected error occurred: " ++ em))])
      ∧ (∀ s tx j, is2xx s = true → Config.keySet cfg = true →
          (update_task cfg a d (.reply s (.decodable tx j))).result = j))
  ∧ (∀ cfg a,
        (∀ m, Json.hasErrorKey (delete_task cfg a (.transportErr m)).result = true)
      ∧ (∀ m, Json.hasErrorKey (delete_task cfg a (.otherErr m)).result = true)
      ∧ (∀ s bd, is2xx s = false →
          Json.hasErrorKey (delete_task cfg a (.reply s bd)).result = true)
      ∧ (∀ s tx em, is2xx s = true → s ≠ 204 → Config.keySet cfg = true →
          (delete_task cfg a (.reply s (.undecodable tx em))).result
            = .obj [("error", .str ("An unexpected error occurred: " ++ em))])
      ∧ (∀ s tx j, is2xx s = true → s ≠ 204 → Config.keySet cfg = true →
          (delete_task cfg a (.reply s (.decodable tx j))).result = j)
      ∧ (∀ bd, Config.keySet cfg = true →
          (delete_task cfg a (.reply 204 bd)).result = deleteTaskSuccess a))
  ∧ (∀ cfg,
        (∀ m, Json.hasErrorKey (list_workspace_members cfg (.transportErr m)).result = true)
      ∧ (∀ m, Json.hasErrorKey (list_workspace_members cfg (.otherErr m)).result = true)
      ∧ (∀ s bd, is2xx s = false →
          Json.hasErrorKey (list_workspace_members cfg (.reply s bd)).result = true)
      ∧ (∀ s tx em, is2xx s = true → Config.keySet cfg = true →
          (list_workspace_members cfg (.reply s (.undecodable tx em))).result
            = .obj [("error", .str ("An unexpected error occurred: " ++ em))])
      ∧ (∀ s tx j, is2xx s = true → Config.keySet cfg = true →
          (list_workspace_members cfg (.reply s (.decodable tx j))).result = j))
  ∧ (∀ cfg a,
        (∀ m, Json.hasErrorKey (get_workspace_member cfg a (.transportErr m)).result = true)
      ∧ (∀ m, Json.hasErrorKey (get_workspace_member cfg a (.otherErr m)).result = true)
      ∧ (∀ s bd, is2xx s = false →
          Json.hasErrorKey (get_workspace_member cfg a (.reply s bd)).result = true)
      ∧ (∀ s tx em, is2xx s = true → Config.keySet cfg = true →
          (get_workspace_member cfg a (.reply s (.undecodable tx em))).result
            = .obj [("error", .str ("An unexpected error occurred: " ++ em))])
      ∧ (∀ s tx j, is2xx s = true → Config.keySet cfg = true →
          (get_workspace_member cfg a (.reply s (.decodable tx j))).result = j)) :=
  ⟨fun cfg _ _ =>
   ⟨fun m => requireKey_result_hasErrorKey cfg _ (runA_transport_hasErrorKey _ _ m),
    fun m => requireKey_result_hasErrorKey cfg _ (runA_other_hasErrorKey _ _ m),
    fun _ bd h => requireKey_result_hasErrorKey cfg _ (runA_non2xx_hasErrorKey _ _ bd h),
    fun _ tx em h2 hk => by
      simp only [create_list_entry, requireKey_of _ _ hk]; exact runA_2xx_undecodable _ tx em h2,
    fun _ tx j h2 hk => by
      simp only [create_list_entry, requireKey_of _ _ hk]; exact runA_2xx_decodable _ tx j h2⟩,
   fun cfg _ _ =>
   ⟨fun m => requireKey_result_hasErrorKey cfg _ (runA_transport_hasErrorKey _ _ m),
    fun m => requireKey_result_hasErrorKey cfg _ (runA_other_hasErrorKey _ _ m),
    fun _ bd h => requireKey_result_hasErrorKey cfg _ (runA_non2xx_hasErrorKey _ _ bd h),
    fun _ tx em h2 hk => by
      simp only [get_list_entry, requireKey_of _ _ hk]; exact runA_2xx_undecodable _ tx em h2,
    fun _ tx j h2 hk => by
      simp only [get_list_entry, requireKey_of _ _ hk]; exact runA_2xx_decodable _ tx j h2⟩,
   fun cfg _ _ _ _ _ =>
   ⟨fun m => requireKey_result_hasErrorKey cfg _ (runA_transport_hasErrorKey _ _ m),
    fun m => requireKey_result_hasErrorKey cfg _ (runA_other_hasErrorKey _ _ m),
    fun _ bd h => requireKey_result_hasErrorKey cfg _ (runA_non2xx_hasErrorKey _ _ bd h),
    fun _ tx em h2 hk => by
      simp only [list_entries, requireKey_of _ _ hk]; exact runA_2xx_undecodable _ tx em h2,
    fun _ tx j h2 hk => by
      simp only [list_entries, requireKey_of _ _ hk]; exact runA_2xx_decodable _ tx j h2⟩,
   fun cfg _ _ _ =>
   ⟨fun m => requireKey_result_hasErrorKey cfg _ (runA_transport_hasErrorKey _ _ m),
    fun m => requireKey_result_hasErrorKey cfg _ (runA_other_hasErrorKey _ _ m),
    fun _ bd h => requireKey_result_hasErrorKey cfg _ (runA_non2xx_hasErrorKey _ _ bd h),
    fun _ tx em h2 hk => by
      simp only [update_list_entry_overwrite, requireKey_of _ _ hk]; exact runA_2xx_undecodable _ tx em h2,
    fun _ tx j h2 hk => by
      simp only [update_list_entry_overwrite, requireKey_of _ _ hk]; exact runA_2xx_decodable _ tx j h2⟩,
   fun cfg _ _ _ =>
   ⟨fun m => requireKey_result_hasErrorKey cfg _ (runA_transport_hasErrorKey _ _ m),
    fun m => requireKey_result_hasErrorKey cfg _ (runA_other_hasErrorKey _ _ m),
    fun _ bd h => requireKey_result_hasErrorKey cfg _ (runA_non2xx_hasErrorKey _ _ bd h),
    fun _ tx em h2 hk => by
      simp only [update_list_entry_append, requireKey_of _ _ hk]; exact runA_2xx_undecodable _ tx em h2,
    fun _ tx j h2 hk => by
      simp only [update_list_entry_append, requireKey_of _ _ hk]; exact runA_2xx_decodable _ tx j h2⟩,
   fun cfg _ _ =>
   ⟨fun m => requireKey_result_hasErrorKey cfg _ (runA_transport_hasErrorKey _ _ m),
    fun m => requireKey_result_hasErrorKey cfg _ (runA_other_hasErrorKey _ _ m),
    fun _ bd h => requireKey_result_hasErrorKey cfg _ (runA_non2xx_hasErrorKey _ _ bd h),
    fun _ tx em h2 hk => by
      simp only [delete_list_entry, requireKey_of _ _ hk]; exact runA_2xx_undecodable _ tx em h2,
    fun _ tx j h2 hk => by
      simp only [delete_list_entry, requireKey_of _ _ hk]; exact runA_2xx_decodable _ tx j h2⟩,
   fun cfg _ _ _ =>
   ⟨fun m => requireKey_result_hasErrorKey cfg _ (runA_transport_hasErrorKey _ _ m),
    fun m => requireKey_result_hasErrorKey cfg _ (runA_other_hasErrorKey _ _ m),
    fun _ bd h => requireKey_result_hasErrorKey cfg _ (runA_non2xx_hasErrorKey _ _ bd h),
    fun _ tx em h2 hk => by
      simp only [get_list_entry_attribute_values, requireKey_of _ _ hk]; exact runA_2xx_undecodable _ tx em h2,
    fun _ tx j h2 hk => by
      simp only [get_list_entry_attribute_values, requireKey_of _ _ hk]; exact runA_2xx_decodable _ tx j h2⟩,
   fun cfg _ _ =>
   ⟨fun m => requireKey_result_hasErrorKey cfg _ (runA_transport_hasErrorKey _ _ m),
    fun m => requireKey_result_hasErrorKey cfg _ (runA_other_hasErrorKey _ _ m),
    fun _ bd h => requireKey_result_hasErrorKey cfg _ (runA_non2xx_hasErrorKey _ _ bd h),
    fun _ tx em h2 hk => by
      simp only [get_record, requireKey_of _ _ hk]; exact runA_2xx_undecodable _ tx em h2,
    fun _ tx j h2 hk => by
      simp only [get_record, requireKey_of _ _ hk]; exact runA_2xx_decodable _ tx j h2⟩,
   fun cfg _ _ _ =>
   ⟨fun m => requireKey_result_hasErrorKey cfg _ (runA_transport_hasErrorKey _ _ m),
    fun m => requireKey_result_hasErrorKey cfg _ (runA_other_hasErrorKey _ _ m),
    fun _ bd h => requireKey_result_hasErrorKey cfg _ (runA_non2xx_hasErrorKey _ _ bd h),
    fun _ tx em h2 hk => by
      simp only [update_record_overwrite, requireKey_of _ _ hk]; exact runA_2xx_undecodable _ tx em h2,
    fun _ tx j h2 hk => by
      simp only [update_record_overwrite, requireKey_of _ _ hk]; exact runA_2xx_decodable _ tx j h2⟩,
   fun cfg _ _ _ =>
   ⟨fun m => requireKey_result_hasErrorKey cfg _ (runA_transport_hasErrorKey _ _ m),
    fun m => requireKey_result_hasErrorKey cfg _ (runA_other_hasErrorKey _ _ m),
    fun _ bd h => requireKey_result_hasErrorKey cfg _ (runA_non2xx_hasErrorKey _ _ bd h),
    fun _ tx em h2 hk => by
      simp only [update_record_append, requireKey_of _ _ hk]; exact runA_2xx_undecodable _ tx em h2,
    fun _ tx j h2 hk => by
      simp only [update_record_append, requireKey_of _ _ hk]; exact runA_2xx_decodable _ tx j h2⟩,
   fun cfg a b => by
   refine ⟨fun m => ?_, fun m => ?_, fun s bd h => ?_,
     fun s tx em h2 h4 hk => ?_, fun s tx j h2 h4 hk => ?_, fun bd hk => ?_⟩
   · cases hk : cfg.keySet <;> simp only [delete_record, requireKey, hk] <;> rfl
   · cases hk : cfg.keySet <;> simp only [delete_record, requireKey, hk] <;> rfl
   · cases hk : cfg.keySet
     · simp only [delete_record, requireKey, hk]; rfl
     · simp [delete_record, requireKey, hk, attempt, h, beq_204_eq_false h,
         classifyA, Json.hasErrorKey]
   · have h5 : (s == 204) = false := by simpa using h4
     simp only [delete_record, requireKey_of _ _ hk]
     simp [attempt, h2, h5, Body.jsonE, classifyA]
   · have h5 : (s == 204) = false := by simpa using h4
     simp only [delete_record, requireKey_of _ _ hk]
     simp [attempt, h2, h5, Body.jsonE]
   · simp only [delete_record, requireKey_of _ _ hk]
     rfl,
   fun cfg _ _ _ _ =>
   ⟨fun m => requireKey_result_hasErrorKey cfg _ (runA_transport_hasErrorKey _ _ m),
    fun m => requireKey_result_hasErrorKey cfg _ (runA_other_hasErrorKey _ _ m),
    fun _ bd h => requireKey_result_hasErrorKey cfg _ (runA_non2xx_hasErrorKey _ _ bd h),
    fun _ tx em h2 hk => by
      simp only [list_record_entries, requireKey_of _ _ hk]; exact runA_2xx_undecodable _ tx em h2,
    fun _ tx j h2 hk => by
      simp only [list_record_entries, requireKey_of _ _ hk]; exact runA_2xx_decodable _ tx j h2⟩,
   fun cfg _ _ _ _ _ =>
   ⟨fun m => requireKey_result_hasErrorKey cfg _ (runA_transport_hasErrorKey _ _ m),
    fun m => requireKey_result_hasErrorKey cfg _ (runA_other_hasErrorKey _ _ m),
    fun _ bd h => requireKey_result_hasErrorKey cfg _ (runA_non2xx_hasErrorKey _ _ bd h),
    fun _ tx em h2 hk => by
      simp only [list_records, requireKey_of _ _ hk]; exact runA_2xx_undecodable _ tx em h2,
    fun _ tx j h2 hk => by
      simp only [list_records, requireKey_of _ _ hk]; exact runA_2xx_decodable _ tx j h2⟩,
   fun cfg _ _ =>
   ⟨fun m => requireKey_result_hasErrorKey cfg _ (runA_transport_hasErrorKey _ _ m),
    fun m => requireKey_result_hasErrorKey cfg _ (runA_other_hasErrorKey _ _ m),
    fun _ bd h => requireKey_result_hasErrorKey cfg _ (runA_non2xx_hasErrorKey _ _ bd h),
    fun _ tx em h2 hk => by
      simp only [create_record, requireKey_of _ _ hk]; exact runA_2xx_undecodable _ tx em h2,
    fun _ tx j h2 hk => by
      simp only [create_record, requireKey_of _ _ hk]; exact runA_2xx_decodable _ tx j h2⟩,
   fun cfg _ _ =>
   ⟨fun m => requireKey_result_hasErrorKey cfg _ (runA_transport_hasErrorKey _ _ m),
    fun m => requireKey_result_hasErrorKey cfg _ (runA_other_hasErrorKey _ _ m),
    fun _ bd h => requireKey_result_hasErrorKey cfg _ (runA_non2xx_hasErrorKey _ _ bd h),
    fun _ tx em h2 hk => by
      simp only [list_lists, requireKey_of _ _ hk]; exact runA_2xx_undecodable _ tx em h2,
    fun _ tx j h2 hk => by
      simp only [list_lists, requireKey_of _ _ hk]; exact runA_2xx_decodable _ tx j h2⟩,
   fun cfg _ =>
   ⟨fun m => requireKey_result_hasErrorKey cfg _ (runA_transport_hasErrorKey _ _ m),
    fun m => requireKey_result_hasErrorKey cfg _ (runA_other_hasErrorKey _ _ m),
    fun _ bd h => requireKey_result_hasErrorKey cfg _ (runA_non2xx_hasErrorKey _ _ bd h),
    fun _ tx em h2 hk => by
      simp only [create_list, requireKey_of _ _ hk]; exact runA_2xx_undecodable _ tx em h2,
    fun _ tx j h2 hk => by
      simp only [create_list, requireKey_of _ _ hk]; exact runA_2xx_decodable _ tx j h2⟩,
   fun cfg _ =>
   ⟨fun m => requireKey_result_hasErrorKey cfg _ (runA_transport_hasErrorKey _ _ m),
    fun m => requireKey_result_hasErrorKey cfg _ (runA_other_hasErrorKey _ _ m),
    fun _ bd h => requireKey_result_hasErrorKey cfg _ (runA_non2xx_hasErrorKey _ _ bd h),
    fun _ tx em h2 hk => by
      simp only [get_list, requireKey_of _ _ hk]; exact runA_2xx_undecodable _ tx em h2,
    fun _ tx j h2 hk => by
      simp only [get_list, requireKey_of _ _ hk]; exact runA_2xx_decodable _ tx j h2⟩,
   fun cfg _ _ =>
   ⟨fun m => requireKey_result_hasErrorKey cfg _ (runA_transport_hasErrorKey _ _ m),
    fun m => requireKey_result_hasErrorKey cfg _ (runA_other_hasErrorKey _ _ m),
    fun _ bd h => requireKey_result_hasErrorKey cfg _ (runA_non2xx_hasErrorKey _ _ bd h),
    fun _ tx em h2 hk => by
      simp only [update_list, requireKey_of _ _ hk]; exact runA_2xx_undecodable _ tx em h2,
    fun _ tx j h2 hk => by
      simp only [update_list, requireKey_of _ _ hk]; exact runA_2xx_decodable _ tx j h2⟩,
   fun cfg t _ _ _ =>
   ⟨fun m => requireKeyTT_result_hasErrorKey cfg t _ (runB_transport_hasErrorKey _ m),
    fun m => requireKeyTT_result_hasErrorKey cfg t _ (runB_other_hasErrorKey _ m),
    fun _ bd h => requireKeyTT_result_hasErrorKey cfg t _ (runB_non2xx_hasErrorKey _ bd h),
    fun _ tx em h2 hk hv => by
      simp only [list_attributes, requireKey_of _ _ hk, requireTargetType_of _ _ hv]
      exact runB_2xx_undecodable tx em h2,
    fun _ tx j h2 hk hv => by
      simp only [list_attributes, requireKey_of _ _ hk, requireTargetType_of _ _ hv]
      exact runB_2xx_decodable tx j h2⟩,
   fun cfg t _ _ =>
   ⟨fun m => requireKeyTT_result_hasErrorKey cfg t _ (runB_transport_hasErrorKey _ m),
    fun m => requireKeyTT_result_hasErrorKey cfg t _ (runB_other_hasErrorKey _ m),
    fun _ bd h => requireKeyTT_result_hasErrorKey cfg t _ (runB_non2xx_hasErrorKey _ bd h),
    fun _ tx em h2 hk hv => by
      simp only [create_attribute, requireKey_of _ _ hk, requireTargetType_of _ _ hv]
      exact runB_2xx_undecodable tx em h2,
    fun _ tx j h2 hk hv => by
      simp only [create_attribute, requireKey_of _ _ hk, requireTargetType_of _ _ hv]
      exact runB_2xx_decodable tx j h2⟩,
   fun cfg t _ _ =>
   ⟨fun m => requireKeyTT_result_hasErrorKey cfg t _ (runB_transport_hasErrorKey _ m),
    fun m => requireKeyTT_result_hasErrorKey cfg t _ (runB_other_hasErrorKey _ m),
    fun _ bd h => requireKeyTT_result_hasErrorKey cfg t _ (runB_non2xx_hasErrorKey _ bd h),
    fun _ tx em h2 hk hv => by
      simp only [get_attribute, requireKey_of _ _ hk, requireTargetType_of _ _ hv]
      exact runB_2xx_undecodable tx em h2,
    fun _ tx j h2 hk hv => by
      simp only [get_attribute, requireKey_of _ _ hk, requireTargetType_of _ _ hv]
      exact runB_2xx_decodable tx j h2⟩,
   fun cfg t _ _ _ =>
   ⟨fun m => requireKeyTT_result_hasErrorKey cfg t _ (runB_transport_hasErrorKey _ m),
    fun m => requireKeyTT_result_hasErrorKey cfg t _ (runB_other_hasErrorKey _ m),
    fun _ bd h => requireKeyTT_result_hasErrorKey cfg t _ (runB_non2xx_hasErrorKey _ bd h),
    fun _ tx em h2 hk hv => by
      simp only [update_attribute, requireKey_of _ _ hk, requireTargetType_of _ _ hv]
      exact runB_2xx_undecodable tx em h2,
    fun _ tx j h2 hk hv => by
      simp only [update_attribute, requireKey_of _ _ hk, requireTargetType_of _ _ hv]
      exact runB_2xx_decodable tx j h2⟩,
   fun cfg t _ _ _ _ =>
   ⟨fun m => requireKeyTT_result_hasErrorKey cfg t _ (runB_transport_hasErrorKey _ m),
    fun m => requireKeyTT_result_hasErrorKey cfg t _ (runB_other_hasErrorKey _ m),
    fun _ bd h => requireKeyTT_result_hasErrorKey cfg t _ (runB_non2xx_hasErrorKey _ bd h),
    fun _ tx em h2 hk hv => by
      simp only [list_select_options, requireKey_of _ _ hk, requireTargetType_of _ _ hv]
      exact runB_2xx_undecodable tx em h2,
    fun _ tx j h2 hk hv => by
      simp only [list_select_options, requireKey_of _ _ hk, requireTargetType_of _ _ hv]
      exact runB_2xx_decodable tx j h2⟩,
   fun cfg t _ _ _ =>
   ⟨fun m => requireKeyTT_result_hasErrorKey cfg t _ (runB_transport_hasErrorKey _ m),
    fun m => requireKeyTT_result_hasErrorKey cfg t _ (runB_other_hasErrorKey _ m),
    fun _ bd h => requireKeyTT_result_hasErrorKey cfg t _ (runB_non2xx_hasErrorKey _ bd h),
    fun _ tx em h2 hk hv => by
      simp only [create_select_option, requireKey_of _ _ hk, requireTargetType_of _ _ hv]
      exact runB_2xx_undecodable tx em h2,
    fun _ tx j h2 hk hv => by
      simp only [create_select_option, requireKey_of _ _ hk, requireTargetType_of _ _ hv]
      exact runB_2xx_decodable tx j h2⟩,
   fun cfg t _ _ _ _ =>
   ⟨fun m => requireKeyTT_result_hasErrorKey cfg t _ (runB_transport_hasErrorKey _ m),
    fun m => requireKeyTT_result_hasErrorKey cfg t _ (runB_other_hasErrorKey _ m),
    fun _ bd h => requireKeyTT_result_hasErrorKey cfg t _ (runB_non2xx_hasErrorKey _ bd h),
    fun _ tx em h2 hk hv => by
      simp only [update_select_option, requireKey_of _ _ hk, requireTargetType_of _ _ hv]
      exact runB_2xx_undecodable tx em h2,
    fun _ tx j h2 hk hv => by
      simp only [update_select_option, requireKey_of _ _ hk, requireTargetType_of _ _ hv]
      exact runB_2xx_decodable tx j h2⟩,
   fun cfg t _ _ _ _ =>
   ⟨fun m => requireKeyTT_result_hasErrorKey cfg t _ (runB_transport_hasErrorKey _ m),
    fun m => requireKeyTT_result_hasErrorKey cfg t _ (runB_other_hasErrorKey _ m),
    fun _ bd h => requireKeyTT_result_hasErrorKey cfg t _ (runB_non2xx_hasErrorKey _ bd h),
    fun _ tx em h2 hk hv => by
      simp only [list_statuses, requireKey_of _ _ hk, requireTargetType_of _ _ hv]
      exact runB_2xx_undecodable tx em h2,
    fun _ tx j h2 hk hv => by
      simp only [list_statuses, requireKey_of _ _ hk, requireTargetType_of _ _ hv]
      exact runB_2xx_decodable tx j h2⟩,
   fun cfg t _ _ _ =>
   ⟨fun m => requireKeyTT_result_hasErrorKey cfg t _ (runB_transport_hasErrorKey _ m),
    fun m => requireKeyTT_result_hasErrorKey cfg t _ (runB_other_hasErrorKey _ m),
    fun _ bd h => requireKeyTT_result_hasErrorKey cfg t _ (runB_non2xx_hasErrorKey _ bd h),
    fun _ tx em h2 hk hv => by
      simp only [create_status, requireKey_of _ _ hk, requireTargetType_of _ _ hv]
      exact runB_2xx_undecodable tx em h2,
    fun _ tx j h2 hk hv => by
      simp only [create_status, requireKey_of _ _ hk, requireTargetType_of _ _ hv]
      exact runB_2xx_decodable tx j h2⟩,
   fun cfg t _ _ _ _ =>
   ⟨fun m => requireKeyTT_result_hasErrorKey cfg t _ (runB_transport_hasErrorKey _ m),
    fun m => requireKeyTT_result_hasErrorKey cfg t _ (runB_other_hasErrorKey _ m),
    fun _ bd h => requireKeyTT_result_hasErrorKey cfg t _ (runB_non2xx_hasErrorKey _ bd h),
    fun _ tx em h2 hk hv => by
      simp only [update_status, requireKey_of _ _ hk, requireTargetType_of _ _ hv]
      exact runB_2xx_undecodable tx em h2,
    fun _ tx j h2 hk hv => by
      simp only [update_status, requireKey_of _ _ hk, requireTargetType_of _ _ hv]
      exact runB_2xx_decodable tx j h2⟩,
   fun cfg =>
   ⟨fun m => requireKey_result_hasErrorKey cfg _ (runB_transport_hasErrorKey _ m),
    fun m => requireKey_result_hasErrorKey cfg _ (runB_other_hasErrorKey _ m),
    fun _ bd h => requireKey_result_hasErrorKey cfg _ (runB_non2xx_hasErrorKey _ bd h),
    fun _ tx em h2 hk => by
      simp only [list_notes, requireKey_of _ _ hk]; exact runB_2xx_undecodable tx em h2,
    fun _ tx j h2 hk => by
      simp only [list_notes, requireKey_of _ _ hk]; exact runB_2xx_decodable tx j h2⟩,
   fun cfg _ =>
   ⟨fun m => requireKey_result_hasErrorKey cfg _ (runB_transport_hasErrorKey _ m),
    fun m => requireKey_result_hasErrorKey cfg _ (runB_other_hasErrorKey _ m),
    fun _ bd h => requireKey_result_hasErrorKey cfg _ (runB_non2xx_hasErrorKey _ bd h),
    fun _ tx em h2 hk => by
      simp only [create_note, requireKey_of _ _ hk]; exact runB_2xx_undecodable tx em h2,
    fun _ tx j h2 hk => by
      simp only [create_note, requireKey_of _ _ hk]; exact runB_2xx_decodable tx j h2⟩,
   fun cfg _ =>
   ⟨fun m => requireKey_result_hasErrorKey cfg _ (runB_transport_hasErrorKey _ m),
    fun m => requireKey_result_hasErrorKey cfg _ (runB_other_hasErrorKey _ m),
    fun _ bd h => requireKey_result_hasErrorKey cfg _ (runB_non2xx_hasErrorKey _ bd h),
    fun _ tx em h2 hk => by
      simp only [get_note, requireKey_of _ _ hk]; exact runB_2xx_undecodable tx em h2,
    fun _ tx j h2 hk => by
      simp only [get_note, requireKey_of _ _ hk]; exact runB_2xx_decodable tx j h2⟩,
   fun cfg a =>
   ⟨fun m => requireKey_result_hasErrorKey cfg _ (runB_transport_hasErrorKey _ m),
    fun m => requireKey_result_hasErrorKey cfg _ (runB_other_hasErrorKey _ m),
    fun _ bd h => requireKey_result_hasErrorKey cfg _ (runB_non2xx_hasErrorKey _ bd h),
    fun _ tx em h2 h4 hk => by
      simp only [delete_note, requireKey_of _ _ hk]
      exact runB_del_2xx_undecodable (deleteNoteSuccess a) tx em h2 h4,
    fun _ tx j h2 h4 hk => by
      simp only [delete_note, requireKey_of _ _ hk]
      exact runB_del_2xx_decodable (deleteNoteSuccess a) tx j h2 h4,
    fun bd hk => by
      simp only [delete_note, requireKey_of _ _ hk]
      exact runB_del_204 (deleteNoteSuccess a) bd⟩,
   fun cfg _ _ =>
   ⟨fun m => requireKey_result_hasErrorKey cfg _ (runB_transport_hasErrorKey _ m),
    fun m => requireKey_result_hasErrorKey cfg _ (runB_other_hasErrorKey _ m),
    fun _ bd h => requireKey_result_hasErrorKey cfg _ (runB_non2xx_hasErrorKey _ bd h),
    fun _ tx em h2 hk => by
      simp only [list_objects, requireKey_of _ _ hk]; exact runB_2xx_undecodable tx em h2,
    fun _ tx j h2 hk => by
      simp only [list_objects, requireKey_of _ _ hk]; exact runB_2xx_decodable tx j h2⟩,
   fun cfg _ =>
   ⟨fun m => requireKey_result_hasErrorKey cfg _ (runB_transport_hasErrorKey _ m),
    fun m => requireKey_result_hasErrorKey cfg _ (runB_other_hasErrorKey _ m),
    fun _ bd h => requireKey_result_hasErrorKey cfg _ (runB_non2xx_hasErrorKey _ bd h),
    fun _ tx em h2 hk => by
      simp only [create_object, requireKey_of _ _ hk]; exact runB_2xx_undecodable tx em h2,
    fun _ tx j h2 hk => by
      simp only [create_object, requireKey_of _ _ hk]; exact runB_2xx_decodable tx j h2⟩,
   fun cfg _ =>
   ⟨fun m => requireKey_result_hasErrorKey cfg _ (runB_transport_hasErrorKey _ m),
    fun m => requireKey_result_hasErrorKey cfg _ (runB_other_hasErrorKey _ m),
    fun _ bd h => requireKey_result_hasErrorKey cfg _ (runB_non2xx_hasErrorKey _ bd h),
    fun _ tx em h2 hk => by
      simp only [get_object, requireKey_of _ _ hk]; exact runB_2xx_undecodable tx em h2,
    fun _ tx j h2 hk => by
      simp only [get_object, requireKey_of _ _ hk]; exact runB_2xx_decodable tx j h2⟩,
   fun cfg _ _ =>
   ⟨fun m => requireKey_result_hasErrorKey cfg _ (runB_transport_hasErrorKey _ m),
    fun m => requireKey_result_hasErrorKey cfg _ (runB_other_hasErrorKey _ m),
    fun _ bd h => requireKey_result_hasErrorKey cfg _ (runB_non2xx_hasErrorKey _ bd h),
    fun _ tx em h2 hk => by
      simp only [update_object, requireKey_of _ _ hk]; exact runB_2xx_undecodable tx em h2,
    fun _ tx j h2 hk => by
      simp only [update_object, requireKey_of _ _ hk]; exact runB_2xx_decodable tx j h2⟩,
   fun cfg =>
   ⟨fun m => requireKey_result_hasErrorKey cfg _ (runB_transport_hasErrorKey _ m),
    fun m => requireKey_result_hasErrorKey cfg _ (runB_other_hasErrorKey _ m),
    fun _ bd h => requireKey_result_hasErrorKey cfg _ (runB_non2xx_hasErrorKey _ bd h),
    fun _ tx em h2 hk => by
      simp only [list_tasks, requireKey_of _ _ hk]; exact runB_2xx_undecodable tx em h2,
    fun _ tx j h2 hk => by
      simp only [list_tasks, requireKey_of _ _ hk]; exact runB_2xx_decodable tx j h2⟩,
   fun cfg _ =>
   ⟨fun m => requireKey_result_hasErrorKey cfg _ (runB_transport_hasErrorKey _ m),
    fun m => requireKey_result_hasErrorKey cfg _ (runB_other_hasErrorKey _ m),
    fun _ bd h => requireKey_result_hasErrorKey cfg _ (runB_non2xx_hasErrorKey _ bd h),
    fun _ tx em h2 hk => by
      simp only [create_task, requireKey_of _ _ hk]; exact runB_2xx_undecodable tx em h2,
    fun _ tx j h2 hk => by
      simp only [create_task, requireKey_of _ _ hk]; exact runB_2xx_decodable tx j h2⟩,
   fun cfg _ =>
   ⟨fun m => requireKey_result_hasErrorKey cfg _ (runB_transport_hasErrorKey _ m),
    fun m => requireKey_result_hasErrorKey cfg _ (runB_other_hasErrorKey _ m),
    fun _ bd h => requireKey_result_hasErrorKey cfg _ (runB_non2xx_hasErrorKey _ bd h),
    fun _ tx em h2 hk => by
      simp only [get_task, requireKey_of _ _ hk]; exact runB_2xx_undecodable tx em h2,
    fun _ tx j h2 hk => by
      simp only [get_task, requireKey_of _ _ hk]; exact runB_2xx_decodable tx j h2⟩,
   fun cfg _ _ =>
   ⟨fun m => requireKey_result_hasErrorKey cfg _ (runB_transport_hasErrorKey _ m),
    fun m => requireKey_result_hasErrorKey cfg _ (runB_other_hasErrorKey _ m),
    fun _ bd h => requireKey_result_hasErrorKey cfg _ (runB_non2xx_hasErrorKey _ bd h),
    fun _ tx em h2 hk => by
      simp only [update_task, requireKey_of _ _ hk]; exact runB_2xx_undecodable tx em h2,
    fun _ tx j h2 hk => by
      simp only [update_task, requireKey_of _ _ hk]; exact runB_2xx_decodable tx j h2⟩,
   fun cfg a =>
   ⟨fun m => requireKey_result_hasErrorKey cfg _ (runB_transport_hasErrorKey _ m),
    fun m => requireKey_result_hasErrorKey cfg _ (runB_other_hasErrorKey _ m),
    fun _ bd h => requireKey_result_hasErrorKey cfg _ (runB_non2xx_hasErrorKey _ bd h),
    fun _ tx em h2 h4 hk => by
      simp only [delete_task, requireKey_of _ _ hk]
      exact runB_del_2xx_undecodable (deleteTaskSuccess a) tx em h2 h4,
    fun _ tx j h2 h4 hk => by
      simp only [delete_task, requireKey_of _ _ hk]
      exact runB_del_2xx_decodable (deleteTaskSuccess a) tx j h2 h4,
    fun bd hk => by
      simp only [delete_task, requireKey_of _ _ hk]
      exact runB_del_204 (deleteTaskSuccess a) bd⟩,
   fun cfg =>
   ⟨fun m => requireKey_result_hasErrorKey cfg _ (runB_transport_hasErrorKey _ m),
    fun m => requireKey_result_hasErrorKey cfg _ (runB_other_hasErrorKey _ m),
    fun _ bd h => requireKey_result_hasErrorKey cfg _ (runB_non2xx_hasErrorKey _ bd h),
    fun _ tx em h2 hk => by
      simp only [list_workspace_members, requireKey_of _ _ hk]; exact runB_2xx_undecodable tx em h2,
    fun _ tx j h2 hk => by
      simp only [list_workspace_members, requireKey_of _ _ hk]; exact runB_2xx_decodable tx j h2⟩,
   fun cfg _ =>
   ⟨fun m => requireKey_result_hasErrorKey cfg _ (runB_transport_hasErrorKey _ m),
    fun m => requireKey_result_hasErrorKey cfg _ (runB_other_hasErrorKey _ m),
    fun _ bd h => requireKey_result_hasErrorKey cfg _ (runB_non2xx_hasErrorKey _ bd h),
    fun _ tx em h2 hk => by
      simp only [get_workspace_member, requireKey_of _ _ hk]; exact runB_2xx_undecodable tx em h2,
    fun _ tx j h2 hk => by
      simp only [get_workspace_member, requireKey_of _ _ hk]; exact runB_2xx_decodable tx j h2⟩⟩

/-- Witness for C3 at concrete inputs: against `create_list_entry`, a 500
with an undecodable body is reported as an error-tagged dictionary, a 200
with an undecodable body as the unexpected-error dictionary, and a 200 with
a decodable body is returned verbatim. -/
theorem c3_no_raise_tagged_failures_witness :
    (Json.hasErrorKey
      (create_list_entry cfg0 "l" (.obj []) (.reply 500 (.undecodable "oops" "m"))).result
      = true)
  ∧ ((create_list_entry cfg0 "l" (.obj []) (.reply 200 (.undecodable "" emptyBodyMsg))).result
      = .obj [("error", .str ("An unexpected error occurred: " ++ emptyBodyMsg))])
  ∧ ((create_list_entry cfg0 "l" (.obj []) (.reply 200 (.decodable "true" (.bool true)))).result
      = .bool true) :=
  ⟨(c3_no_raise_tagged_failures.1 cfg0 "l" (.obj [])).2.2.1 500 (.undecodable "oops" "m") rfl,
   (c3_no_raise_tagged_failures.1 cfg0 "l" (.obj [])).2.2.2.1 200 "" emptyBodyMsg rfl rfl,
   (c3_no_raise_tagged_failures.1 cfg0 "l" (.obj [])).2.2.2.2 200 "true" (.bool true) rfl rfl⟩
